import Mathlib

/-
Shallow embedding of the math-quiz backend:
  * QuestionGenerator (src/unnamed/part_000)
  * GameService (src/dist/services/GameService.js)
Randomness (JS Math.random) is modelled by an oracle `Oracle : ℕ → ℕ`;
each call site consumes a draw and reduces it into the JS range with `%`,
so every behaviour of the JS code corresponds to some oracle and vice versa.
JS numbers are modelled as ℚ (all numeric expressions in this code are
rational-valued; division never has a zero denominator by construction).
Question ids / uuid / createdAt timestamps are non-numeric metadata that no
claim depends on and are omitted from the Question value.
-/

namespace MathQuiz

inductive Difficulty
  | easy
  | medium
  | hard
deriving DecidableEq, Repr

inductive Op
  | add
  | sub
  | mul
  | div
deriving DecidableEq, Repr

/-- An oracle of random draws; stands for the stream of Math.random() values. -/
abbrev Oracle : Type := ℕ → ℕ

/-- Split an oracle into independent sub-streams. -/
def subOracle (g : Oracle) (k : ℕ) : Oracle := fun i => g (Nat.pair k i)

/-- randomNumber(min, max) = Math.floor(Math.random() * (max - min + 1)) + min.
The draw `r` is reduced into [0, max-min] by `%`. -/
def randomNumber (r min max : ℕ) : ℕ := min + r % (max - min + 1)

/-- JS Math.round: round half up, i.e. floor(x + 0.5). -/
def jsRound (q : ℚ) : ℤ := ⌊q + 1/2⌋

/-- Math.round(x * 100) / 100 : round to 2 decimal places. -/
def round2 (q : ℚ) : ℚ := (jsRound (q * 100) : ℚ) / 100

/-- Math.round(x * 1000) / 1000 : round to 3 decimal places. -/
def round3 (q : ℚ) : ℚ := (jsRound (q * 1000) : ℚ) / 1000

/-- JS Math.abs, written so that it evaluates by kernel reduction. -/
def ratAbs (q : ℚ) : ℚ := if q < 0 then -q else q

/-- Truncation toward zero, as JS Number-to-integer conversion in `%`. -/
def ratTrunc (q : ℚ) : ℤ := Int.tdiv q.num (q.den : ℤ)

/-- JS remainder `x % n` (sign follows the dividend). -/
def jsMod (x n : ℚ) : ℚ := x - n * (ratTrunc (x / n) : ℚ)

structure Question where
  problem : String
  answer : ℚ
  difficulty : Difficulty
deriving DecidableEq, Repr

structure DiffConfig where
  min : ℕ
  max : ℕ
  operators : List Op
  maxTerms : ℕ
deriving Repr

/-- DIFFICULTY_CONFIG table (allowDecimals/allowNegatives are never read). -/
def DIFFICULTY_CONFIG : Difficulty → DiffConfig
  | .easy => ⟨1, 50, [Op.add, Op.sub], 2⟩
  | .medium => ⟨1, 200, [Op.add, Op.sub, Op.mul], 3⟩
  | .hard => ⟨1, 1000, [Op.add, Op.sub, Op.mul, Op.div], 4⟩

def opChar : Op → String
  | .add => "+"
  | .sub => "-"
  | .mul => "*"
  | .div => "/"

/-- A flat operator chain `n0 op1 n1 op2 n2 ...` as built by
generateArithmeticExpression. -/
abbrev Chain : Type := ℕ × List (Op × ℕ)

def chainStr (c : Chain) : String :=
  c.2.foldl (fun acc p => acc ++ " " ++ opChar p.1 ++ " " ++ toString p.2)
    (toString c.1)

/-- Evaluate a chain with standard precedence (* and / bind tighter than + and -),
as mathjs `evaluate` does on these expressions. `acc` is the sum of completed
additive terms, `cur` the current multiplicative term (carrying its sign). -/
def evalChainAux : ℚ → ℚ → List (Op × ℕ) → ℚ
  | acc, cur, [] => acc + cur
  | acc, cur, (Op.add, n) :: rest => evalChainAux (acc + cur) (n : ℚ) rest
  | acc, cur, (Op.sub, n) :: rest => evalChainAux (acc + cur) (-(n : ℚ)) rest
  | acc, cur, (Op.mul, n) :: rest => evalChainAux acc (cur * (n : ℚ)) rest
  | acc, cur, (Op.div, n) :: rest => evalChainAux acc (cur / (n : ℚ)) rest

def evalChain (c : Chain) : ℚ := evalChainAux 0 (c.1 : ℚ) c.2

/-- Floor square root (largest k with k*k ≤ n), written as a fold so it
evaluates by kernel reduction; stands for JS Math.sqrt on exact inputs. -/
def natSqrt (n : ℕ) : ℕ :=
  (List.range (n + 1)).foldl (fun acc k => if k * k ≤ n then k else acc) 0

/-- Divisors of num pushed in the JS loop order (i, then num/i, for i up to √num). -/
def divisorsList (num : ℕ) : List ℕ :=
  (List.range (natSqrt num)).foldl
    (fun acc j =>
      let i := j + 1
      if num % i = 0 then
        acc ++ [i] ++ (if i ≠ num / i then [num / i] else [])
      else acc)
    []

/-- findDivisor: random divisor of num (1 when num ≤ 1). The JS `|| 1` fallback
can only fire on an empty list, which needs num ≤ 1, already handled. -/
def findDivisor (num : ℕ) (r : ℕ) : ℕ :=
  if num ≤ 1 then 1
  else
    let divisors := divisorsList num
    divisors.getD (r % divisors.length) 1

/-- One `expression += " op n"` step of generateArithmeticExpression, including
the best-effort clean-division bias. `Math.random() > 0.3` is modelled as a
draw with `% 10 > 2`. -/
def extendChain (cfg : DiffConfig) (c : Chain) (h : Oracle) : Chain :=
  let op := cfg.operators.getD ((h 0) % cfg.operators.length) Op.add
  let n0 := randomNumber (h 1) cfg.min cfg.max
  if op = Op.div then
    let n1 := Nat.max 1 n0
    let cur := evalChain c
    let n2 :=
      if jsMod cur (n1 : ℚ) ≠ 0 ∧ (h 2) % 10 > 2 then
        findDivisor (Int.natAbs ⌊cur⌋) (h 3)
      else n1
    (c.1, c.2 ++ [(op, n2)])
  else
    (c.1, c.2 ++ [(op, n0)])

def buildChain (cfg : DiffConfig) (numTerms : ℕ) (g : Oracle) : Chain :=
  let first := randomNumber (g 0) cfg.min cfg.max
  (List.range (numTerms - 1)).foldl
    (fun c i => extendChain cfg c (subOracle g (i + 1)))
    (first, [])

/-- isValidAnswer: typeof/isNaN/isFinite hold for every ℚ; the live content is
the magnitude bound. -/
def isValidAnswer (r : ℚ) : Bool := ratAbs r < 1000000

/-- The inner validity loop of generateArithmetic (up to 20 attempts).
Returns (last expression, answer, found-valid). On exhaustion the JS code keeps
the last expression with `answer = 0`. -/
def arithLoop (cfg : DiffConfig) (numTerms : ℕ) (g : Oracle) :
    ℕ → ℕ → Chain × ℚ × Bool
  | 0, k => (buildChain cfg numTerms (subOracle g k), 0, false)
  | fuel + 1, k =>
    let c := buildChain cfg numTerms (subOracle g k)
    let r := evalChain c
    if isValidAnswer r then (c, round2 r, true)
    else if fuel = 0 then (c, 0, false)
    else arithLoop cfg numTerms g fuel (k + 1)

def generateArithmetic (d : Difficulty) (g : Oracle) : Question :=
  let cfg := DIFFICULTY_CONFIG d
  let numTerms := (g 0) % (cfg.maxTerms - 1) + 2
  let out := arithLoop cfg numTerms g 20 1
  { problem := "Calculate: " ++ chainStr out.1
    answer := out.2.1
    difficulty := d }

def algebraConfig : Difficulty → ℕ × ℕ
  | .easy => (1, 20)
  | .medium => (1, 50)
  | .hard => (1, 100)

def algebraForms (a b x : ℕ) : List (String × ℚ) :=
  [ ("If " ++ toString a ++ "x + " ++ toString b ++ " = " ++
       toString (a * x + b) ++ ", find x", (x : ℚ))
  , ("Solve for x: " ++ toString a ++ "x - " ++ toString b ++ " = " ++
       toString ((a * x : ℤ) - (b : ℤ)), (x : ℚ))
  , ("What is x when " ++ toString a ++ "(x + " ++ toString b ++ ") = " ++
       toString (a * (x + b)) ++ "?", (x : ℚ))
  , ("Find x: " ++ toString a ++ "x = " ++ toString (a * x), (x : ℚ)) ]

def generateAlgebra (d : Difficulty) (g : Oracle) : Question :=
  let cfg := algebraConfig d
  let a := randomNumber (g 0) cfg.1 cfg.2
  let b := randomNumber (g 1) cfg.1 cfg.2
  let x := randomNumber (g 2) cfg.1 cfg.2
  -- the JS `if (!selected)` fallback is the getD default (dead for index < 4)
  let selected := (algebraForms a b x).getD ((g 3) % 4)
    ("Calculate: " ++ toString a ++ " + " ++ toString b, ((a + b : ℕ) : ℚ))
  { problem := selected.1, answer := selected.2, difficulty := d }

def maxDenomOf : Difficulty → ℕ
  | .easy => 10
  | .medium => 20
  | .hard => 50

def fracProblem (num1 den1 num2 den2 : ℕ) (isAdd : Bool) : String :=
  "Calculate: " ++ toString num1 ++ "/" ++ toString den1 ++ " " ++
    (if isAdd then "+" else "-") ++ " " ++ toString num2 ++ "/" ++
    toString den2 ++ " (as decimal)"

def generateFractions (d : Difficulty) (g : Oracle) : Question :=
  let maxDenom := maxDenomOf d
  let num1 := randomNumber (g 0) 1 (maxDenom - 1)
  let den1 := randomNumber (g 1) (num1 + 1) maxDenom
  let num2 := randomNumber (g 2) 1 (maxDenom - 1)
  let den2 := randomNumber (g 3) (num2 + 1) maxDenom
  let isAdd := (g 4) % 2 = 0
  let result : ℚ :=
    (if isAdd then ((num1 * den2 : ℕ) : ℚ) + ((num2 * den1 : ℕ) : ℚ)
     else ((num1 * den2 : ℕ) : ℚ) - ((num2 * den1 : ℕ) : ℚ)) / ((den1 * den2 : ℕ) : ℚ)
  { problem := fracProblem num1 den1 num2 den2 isAdd
    answer := round3 result
    difficulty := d }

def percentDirectProblem (percentage base : ℕ) : String :=
  "What is " ++ toString percentage ++ "% of " ++ toString base ++ "?"

def percentInverseProblem (base : ℕ) (shown : ℤ) : String :=
  toString base ++ " is what percent of " ++ toString shown ++ "?"

def generatePercentages (d : Difficulty) (g : Oracle) : Question :=
  let base := randomNumber (g 0) 50 1000
  let percentage := randomNumber (g 1) 5 95
  let types : List (String × ℚ) :=
    [ (percentDirectProblem percentage base,
        round2 (((base * percentage : ℕ) : ℚ) / 100))
    , (percentInverseProblem base (jsRound (((base * 100 : ℕ) : ℚ) / (percentage : ℚ))),
        (percentage : ℚ)) ]
  -- the JS `if (!selected)` fallback is the getD default (dead for index < 2)
  let selected := types.getD ((g 2) % 2)
    (percentDirectProblem percentage base,
      round2 (((base * percentage : ℕ) : ℚ) / 100))
  { problem := selected.1, answer := selected.2, difficulty := d }

def maxBaseOf : Difficulty → ℕ
  | .easy => 10
  | .medium => 15
  | .hard => 20

def maxPowerOf : Difficulty → ℕ
  | .easy => 3
  | .medium => 4
  | .hard => 5

def powProblem (base power : ℕ) : String :=
  "Calculate: " ++ toString base ++ "^" ++ toString power

def sqrtProblem (num : ℕ) : String :=
  "What is √" ++ toString num ++ "?"

def generatePowers (d : Difficulty) (g : Oracle) : Question :=
  let base := randomNumber (g 0) 2 (maxBaseOf d)
  let power := randomNumber (g 1) 2 (maxPowerOf d)
  let result := base ^ power
  if 10000 < result then
    -- use square root instead for large numbers (only when num is a perfect square)
    let num := randomNumber (g 2) 4 100
    -- Number.isInteger(Math.sqrt(num)) : num is a perfect square
    if natSqrt num * natSqrt num = num then
      { problem := sqrtProblem num
        answer := (natSqrt num : ℚ)
        difficulty := d }
    else
      { problem := powProblem base power
        answer := (result : ℚ)
        difficulty := d }
  else
    { problem := powProblem base power
      answer := (result : ℚ)
      difficulty := d }

def mixedForms (a b c : ℕ) : List (String × ℚ) :=
  [ ("(" ++ toString a ++ " + " ++ toString b ++ ") * " ++ toString c,
      ((a : ℚ) + b) * c)
  , (toString a ++ " * (" ++ toString b ++ " + " ++ toString c ++ ")",
      (a : ℚ) * ((b : ℚ) + c))
  , ("(" ++ toString a ++ " + " ++ toString b ++ ") / " ++ toString c,
      ((a : ℚ) + b) / c)
  , (toString a ++ " + " ++ toString b ++ " * " ++ toString c,
      (a : ℚ) + (b : ℚ) * c)
  , (toString a ++ " * " ++ toString b ++ " - " ++ toString c,
      (a : ℚ) * b - c)
  , ("(" ++ toString a ++ " - " ++ toString b ++ ") + " ++ toString c ++ " * 2",
      ((a : ℚ) - b) + (c : ℚ) * 2) ]

def generateMixed (d : Difficulty) (g : Oracle) : Question :=
  let cfg := DIFFICULTY_CONFIG d
  let hi := Nat.min cfg.max 50
  let a := randomNumber (g 0) cfg.min hi
  let b := randomNumber (g 1) cfg.min hi
  let c := randomNumber (g 2) cfg.min hi
  -- the JS `if (!expression)` fallback is the getD default (dead for index < 6)
  let selected := (mixedForms a b c).getD ((g 3) % 6)
    (toString a ++ " + " ++ toString b, ((a + b : ℕ) : ℚ))
  -- mathjs evaluate cannot fail on these expressions, so the catch branch is dead
  { problem := "Calculate: " ++ selected.1
    answer := round2 selected.2
    difficulty := d }

def generateSimpleArithmetic (d : Difficulty) (g : Oracle) : Question :=
  let cfg := DIFFICULTY_CONFIG d
  let a := randomNumber (g 0) cfg.min cfg.max
  let b := randomNumber (g 1) cfg.min cfg.max
  let opIdx := (g 2) % 3
  let op := [Op.add, Op.sub, Op.mul].getD opIdx Op.add
  let result : ℚ :=
    match op with
    | Op.add => ((a : ℚ) + b)
    | Op.sub => ((a : ℚ) - b)
    | Op.mul => ((a : ℚ) * b)
    | Op.div => ((a : ℚ) + b)  -- JS default branch (unreachable: opIdx < 3)
  { problem := "Calculate: " ++ toString a ++ " " ++ opChar op ++ " " ++ toString b
    answer := result
    difficulty := d }

inductive QType
  | arithmetic
  | algebra
  | fractions
  | percentages
  | powers
  | mixed
deriving DecidableEq, Repr

def QUESTION_TYPES : List QType :=
  [.arithmetic, .algebra, .fractions, .percentages, .powers, .mixed]

def getRandomQuestionType (d : Difficulty) (r : ℕ) : QType :=
  match d with
  | .easy => QUESTION_TYPES.getD (r % 2) .arithmetic
  | .medium => QUESTION_TYPES.getD (r % 4) .arithmetic
  | .hard => QUESTION_TYPES.getD (r % 6) .arithmetic

def generateQuestionByType (t : QType) (d : Difficulty) (g : Oracle) : Question :=
  match t with
  | .arithmetic => generateArithmetic d g
  | .algebra => generateAlgebra d g
  | .fractions => generateFractions d g
  | .percentages => generatePercentages d g
  | .powers => generatePowers d g
  | .mixed => generateMixed d g

/-- The dedupe key `${question.problem}-${question.answer}` (ℚ printed by Lean;
only key identity matters to the dedupe logic). -/
def questionKey (q : Question) : String := q.problem ++ "-" ++ toString q.answer

/-- Set.add then the size-triggered trim, in source order. JS Sets iterate in
insertion order and re-adding an existing key neither duplicates nor reorders,
so the set is a duplicate-free list in insertion order and
`Array.from(set).slice(-100)` is `drop (length - 100)`. -/
def dedupeAdd (seen : List String) (key : String) : List String :=
  let s1 := if seen.contains key then seen else seen ++ [key]
  if 150 < s1.length then s1.drop (s1.length - 100) else s1

/-- The main attempt loop of generateQuestion (up to 50 attempts). `none` means
all attempts were rejected by the dedupe check. The seen-set is only mutated on
the accepting attempt. -/
def genQLoop (d : Difficulty) (G : Oracle) (seen : List String) :
    ℕ → ℕ → Option (Question × List String)
  | 0, _ => none
  | fuel + 1, k =>
    let h := subOracle G k
    let t := getRandomQuestionType d (h 0)
    let q := generateQuestionByType t d (subOracle h 1)
    let key := questionKey q
    if ¬ seen.contains key ∨ 100 < seen.length then
      some (q, dedupeAdd seen key)
    else genQLoop d G seen fuel (k + 1)

/-- generateQuestion: 50 attempts, then the guaranteed simple-arithmetic
fallback (which does not touch the seen-set). Returns the question and the
updated seen-set (the JS static field, made explicit). -/
def generateQuestion (d : Difficulty) (G : Oracle) (seen : List String) :
    Question × List String :=
  match genQLoop d G seen 50 0 with
  | some (q, seen') => (q, seen')
  | none => (generateSimpleArithmetic d (subOracle G 999), seen)

/-! ## GameService (src/dist/services/GameService.js)

Timestamps are milliseconds as ℤ.  The asynchronous score-ledger write is
modelled by an `Except String Unit` parameter standing for the outcome of the
underlying `UserModel.findOneAndUpdate` call; both the inner catch in
`updateUserScore` and the outer catch in `submitAnswer` swallow it.
The JS code is single-threaded and cooperative: everything in `submitAnswer`
up to the winning return is synchronous except the awaited ledger write, which
happens after the winner record and `isActive=false` are already set and before
the `finally` releases the lock, so a sequential state-transformer per call is
a faithful model (calls interleaved during another call's await observe
`submissionLock = true`). -/

structure WinnerRecord where
  userId : String
  username : String
  submissionTime : ℤ
deriving DecidableEq, Repr

structure GameState where
  currentQuestion : Option Question
  isActive : Bool
  startTime : Option ℤ
  winner : Option WinnerRecord
  participants : List String
deriving DecidableEq, Repr

structure SubmissionResult where
  isCorrect : Bool
  isWinner : Bool
  submissionTime : ℤ
  timeTaken : ℤ
deriving DecidableEq, Repr

structure ServiceState where
  submissionLock : Bool
  currentDifficulty : Difficulty
  gameState : GameState
  seen : List String
deriving DecidableEq, Repr

def getBaseScore : Difficulty → ℕ
  | .easy => 100
  | .medium => 250
  | .hard => 500

/-- updateUserScore: compute the score and attempt the ledger upsert; the
internal try/catch logs and swallows any database error. -/
def updateUserScore (d : Difficulty) (timeTaken : ℤ)
    (dbWrite : Except String Unit) : Except String Unit :=
  let baseScore := getBaseScore d
  let timeBonus := max (0 : ℤ) (10000 - timeTaken)
  let _totalScore := (baseScore : ℤ) + timeBonus / 1000
  match dbWrite with
  | .ok _ => .ok ()
  | .error _ => .ok ()

/-- The body of submitAnswer once the round is known active with question `q`
and start time `st`. -/
def submitActive (s : ServiceState) (userId username : String) (answer : ℚ)
    (submissionTime : ℤ) (dbWrite : Except String Unit) (q : Question)
    (st : ℤ) : SubmissionResult × ServiceState :=
  let timeTaken := submissionTime - st
  if ratAbs (answer - q.answer) < 1/100 then
    -- critical section: first check of lock and winner (fast path)
    if s.submissionLock || s.gameState.winner.isSome then
      (⟨true, false, submissionTime, timeTaken⟩, s)
    else
      -- acquire the lock
      let s1 : ServiceState := { s with submissionLock := true }
      -- double-check the winner after acquiring (race-closing check);
      -- the finally releases the lock on this path too
      if s1.gameState.winner.isSome then
        (⟨true, false, submissionTime, timeTaken⟩,
          { s1 with submissionLock := false })
      else
        let s2 : ServiceState :=
          { s1 with gameState :=
            { s1.gameState with
                winner := some ⟨userId, username, submissionTime⟩
                isActive := false } }
        -- awaited ledger write; the outer try/catch logs and continues either way,
        -- and the finally releases the lock on both paths
        match updateUserScore s2.currentDifficulty timeTaken dbWrite with
        | .ok _ =>
          (⟨true, true, submissionTime, timeTaken⟩,
            { s2 with submissionLock := false })
        | .error _ =>
          (⟨true, true, submissionTime, timeTaken⟩,
            { s2 with submissionLock := false })
  else
    (⟨false, false, submissionTime, timeTaken⟩, s)

/-- submitAnswer(userId, username, answer) at instant `submissionTime`. -/
def submitAnswer (s : ServiceState) (userId username : String) (answer : ℚ)
    (submissionTime : ℤ) (dbWrite : Except String Unit) :
    SubmissionResult × ServiceState :=
  match s.gameState.isActive, s.gameState.currentQuestion, s.gameState.startTime with
  | true, some q, some st =>
    submitActive s userId username answer submissionTime dbWrite q st
  | _, _, _ =>
    (⟨false, false, submissionTime, 0⟩, s)

/-- adjustDifficulty from the connected-user count. -/
def adjustDifficulty (participantCount : ℕ) : Difficulty :=
  if participantCount ≤ 2 then .easy
  else if participantCount ≤ 5 then .medium
  else .hard

/-- startNewQuestion: adjust difficulty, generate a question, and replace the
round state wholesale. `connectedUsers` is the current socket-id key list. -/
def startNewQuestion (s : ServiceState) (connectedUsers : List String)
    (G : Oracle) (now : ℤ) : ServiceState :=
  let d := adjustDifficulty connectedUsers.length
  let out := generateQuestion d G s.seen
  { submissionLock := false
    currentDifficulty := d
    gameState :=
      { currentQuestion := some out.1
        isActive := true
        startTime := some now
        winner := none
        participants := connectedUsers }
    seen := out.2 }

/-- forceNewQuestion: clear the winner, deactivate, release the lock, then
start a new round. -/
def forceNewQuestion (s : ServiceState) (connectedUsers : List String)
    (G : Oracle) (now : ℤ) : ServiceState :=
  let s1 : ServiceState :=
    { s with
        submissionLock := false
        gameState := { s.gameState with winner := none, isActive := false } }
  startNewQuestion s1 connectedUsers G now

/-- One submission event: who, what, when, and the would-be ledger outcome. -/
structure Sub where
  userId : String
  username : String
  answer : ℚ
  time : ℤ
  db : Except String Unit

def stepSub (s : ServiceState) (x : Sub) : SubmissionResult × ServiceState :=
  submitAnswer s x.userId x.username x.answer x.time x.db

/-- Run a round's submissions in resolution order, collecting results. -/
def runSubs : ServiceState → List Sub → List SubmissionResult × ServiceState
  | s, [] => ([], s)
  | s, x :: xs =>
    let r := stepSub s x
    let rest := runSubs r.2 xs
    (r.1 :: rest.1, rest.2)

/-- All states of the round's lifetime, starting state included. -/
def statesAlong : ServiceState → List Sub → List ServiceState
  | s, [] => [s]
  | s, x :: xs => s :: statesAlong (stepSub s x).2 xs

/-! ## Helper lemmas -/

theorem ratAbs_eq_abs (q : ℚ) : ratAbs q = |q| := by
  unfold ratAbs
  split_ifs with h
  · exact (abs_of_neg h).symm
  · exact (abs_of_nonneg (not_lt.mp h)).symm

theorem jsRound_sub_le (q : ℚ) : |(jsRound q : ℚ) - q| ≤ 1/2 := by
  unfold jsRound
  rw [abs_le]
  constructor
  · have h := Int.lt_floor_add_one (q + 1/2)
    push_cast at h ⊢
    linarith
  · have h := Int.floor_le (q + 1/2)
    push_cast at h ⊢
    linarith

theorem round2_sub_le (q : ℚ) : |round2 q - q| ≤ 1/200 := by
  unfold round2
  have h := jsRound_sub_le (q * 100)
  rw [abs_le] at h ⊢
  constructor <;> linarith

theorem round3_sub_le (q : ℚ) : |round3 q - q| ≤ 1/2000 := by
  unfold round3
  have h := jsRound_sub_le (q * 1000)
  rw [abs_le] at h ⊢
  constructor <;> linarith

theorem round2_abs_le (q : ℚ) : |round2 q| ≤ |q| + 1/200 := by
  have h := round2_sub_le q
  have := abs_sub_abs_le_abs_sub (round2 q) q
  linarith

theorem round3_abs_le (q : ℚ) : |round3 q| ≤ |q| + 1/2000 := by
  have h := round3_sub_le q
  have := abs_sub_abs_le_abs_sub (round3 q) q
  linarith

theorem randomNumber_le (r min max : ℕ) (h : min ≤ max) :
    randomNumber r min max ≤ max := by
  unfold randomNumber
  have hm : r % (max - min + 1) < max - min + 1 := Nat.mod_lt _ (by omega)
  omega

theorem randomNumber_ge (r min max : ℕ) : min ≤ randomNumber r min max := by
  unfold randomNumber
  omega

/-! ## Claim theorems: session controller -/

def difficultyRank : Difficulty → ℕ
  | .easy => 0
  | .medium => 1
  | .hard => 2

/-- C8: difficulty selection is a monotonic step function of the participant
count: a count of at most 2 (including 0) yields easy, 3 through 5 yields
medium, and 6 or more yields hard, with exact boundaries. -/
theorem adjustDifficulty_step (n : ℕ) :
    (n ≤ 2 → adjustDifficulty n = Difficulty.easy) ∧
    (3 ≤ n → n ≤ 5 → adjustDifficulty n = Difficulty.medium) ∧
    (6 ≤ n → adjustDifficulty n = Difficulty.hard) ∧
    (∀ m, m ≤ n → difficultyRank (adjustDifficulty m) ≤ difficultyRank (adjustDifficulty n)) := by
  refine ⟨?_, ?_, ?_, ?_⟩
  · intro h
    simp [adjustDifficulty, h]
  · intro h3 h5
    unfold adjustDifficulty
    split_ifs <;> first | rfl | omega
  · intro h
    have h2 : ¬ n ≤ 2 := by omega
    have h5 : ¬ n ≤ 5 := by omega
    simp [adjustDifficulty, h2, h5]
  · intro m hm
    unfold adjustDifficulty
    split_ifs <;> simp [difficultyRank] <;> omega

theorem adjustDifficulty_step_witness :
    adjustDifficulty 0 = Difficulty.easy ∧
    adjustDifficulty 2 = Difficulty.easy ∧
    adjustDifficulty 3 = Difficulty.medium ∧
    adjustDifficulty 5 = Difficulty.medium ∧
    adjustDifficulty 6 = Difficulty.hard ∧
    difficultyRank (adjustDifficulty 2) ≤ difficultyRank (adjustDifficulty 6) :=
  ⟨(adjustDifficulty_step 0).1 (by decide),
   (adjustDifficulty_step 2).1 (by decide),
   (adjustDifficulty_step 3).2.1 (by decide) (by decide),
   (adjustDifficulty_step 5).2.1 (by decide) (by decide),
   (adjustDifficulty_step 6).2.2.1 (by decide),
   (adjustDifficulty_step 6).2.2.2 2 (by decide)⟩

/-- C6: with no active round (inactive flag, or no question, or no start time),
submitAnswer returns the normal outcome {isCorrect:false, isWinner:false,
timeTaken:0} and leaves the state unchanged. -/
theorem submitAnswer_no_round (s : ServiceState) (uid un : String) (a : ℚ)
    (t : ℤ) (db : Except String Unit)
    (h : s.gameState.isActive = false ∨ s.gameState.currentQuestion = none ∨
      s.gameState.startTime = none) :
    submitAnswer s uid un a t db = (⟨false, false, t, 0⟩, s) := by
  unfold submitAnswer
  rcases hact : s.gameState.isActive with _ | _ <;>
    rcases hq : s.gameState.currentQuestion with _ | q <;>
      rcases hst : s.gameState.startTime with _ | st <;>
        simp_all

theorem submitAnswer_no_round_witness :
    submitAnswer ⟨false, .easy, ⟨none, false, none, none, []⟩, []⟩ "u1" "ann" 7 50
      (Except.ok ()) = (⟨false, false, 50, 0⟩, ⟨false, .easy, ⟨none, false, none, none, []⟩, []⟩) :=
  submitAnswer_no_round _ "u1" "ann" 7 50 (Except.ok ()) (Or.inl rfl)

/-- Whenever the round is inactive, submitAnswer takes the no-round path. -/
theorem submitAnswer_inactive (s : ServiceState) (uid un : String) (a : ℚ)
    (t : ℤ) (db : Except String Unit) (h : s.gameState.isActive = false) :
    submitAnswer s uid un a t db = (⟨false, false, t, 0⟩, s) := by
  obtain ⟨lock, dd, ⟨cq, act, sTime, win, parts⟩, seen⟩ := s
  simp only at h
  subst h
  rcases cq with _ | q <;> rcases sTime with _ | st <;> rfl

theorem updateUserScore_eq (d : Difficulty) (tt : ℤ) (db : Except String Unit) :
    updateUserScore d tt db = Except.ok () := by
  unfold updateUserScore
  cases db <;> rfl

/-- The winning branch of the critical section, fully characterized. -/
theorem submitActive_win (s : ServiceState) (uid un : String) (a : ℚ) (t : ℤ)
    (db : Except String Unit) (q : Question) (st : ℤ)
    (hc : ratAbs (a - q.answer) < 1/100)
    (hl : s.submissionLock = false)
    (hw : s.gameState.winner = none) :
    submitActive s uid un a t db q st =
      (⟨true, true, t, t - st⟩,
        { s with
            submissionLock := false
            gameState := { s.gameState with
                winner := some ⟨uid, un, t⟩
                isActive := false } }) := by
  unfold submitActive
  rw [if_pos hc]
  rw [if_neg (by simp [hl, hw])]
  rw [if_neg (by simp [hw])]
  simp only [updateUserScore_eq]

/-- isCorrect is exactly the strict tolerance comparison on the model values.
The states and submitted values are exact rationals; the program's comparison
at GameService.js:58 runs on binary64 numbers, so a JS literal such as 42.01
must enter this model as its binary64 value (see roundUlp / fl4201 below),
upon which the model's exact comparison coincides with the program's: all the
doubles involved are exactly-representable rationals and the subtraction,
absolute value and comparison at these magnitudes are exact in binary64. -/
theorem submitAnswer_isCorrect_iff (s : ServiceState) (uid un : String) (a : ℚ)
    (t : ℤ) (db : Except String Unit) (q : Question) (st : ℤ)
    (hact : s.gameState.isActive = true)
    (hq : s.gameState.currentQuestion = some q)
    (hst : s.gameState.startTime = some st) :
    (submitAnswer s uid un a t db).1.isCorrect = true ↔ ratAbs (a - q.answer) < 1/100 := by
  unfold submitAnswer
  rw [hact, hq, hst]
  show (submitActive s uid un a t db q st).1.isCorrect = true ↔ _
  unfold submitActive
  dsimp only
  split_ifs with hc h1 h2
  · exact iff_of_true (by trivial) hc
  · exact iff_of_true (by trivial) hc
  · simp only [updateUserScore_eq]
    exact iff_of_true (by trivial) hc
  · exact iff_of_false (by simp) hc

/-- Round to the nearest multiple of 2^(-k), ties to even: IEEE-754 binary64
rounding for magnitudes in the binade whose unit in the last place is 2^(-k)
(k = 47 on [32, 64), k = 59 on [2^-7, 2^-6)). -/
def roundUlp (k : ℕ) (q : ℚ) : ℚ :=
  let x := q * 2 ^ k
  let n := ⌊x⌋
  let r :=
    if x - n < 1/2 then n
    else if 1/2 < x - n then n + 1
    else if n % 2 = 0 then n else n + 1
  (r : ℚ) / 2 ^ k

/-- The binary64 value of the JS literal 42.01 (42.00999999999999801…). -/
def fl4201 : ℚ := roundUlp 47 (4201/100)

/-- The binary64 value of the JS literal 41.995 (41.99499999999999744…). -/
def fl41995 : ℚ := roundUlp 47 (41995/1000)

/-- The binary64 value of the JS literal 0.01 (0.01000000000000000020…). -/
def fl001 : ℚ := roundUlp 59 (1/100)

/-- C5 counterexample: the program accepts a submission of 42.01 against the
true answer 42. The binary64 value of 42.01 differs from 42 by
1407374883553/2^47 = 0.00999999999999801…, strictly below both the exact 0.01
and the binary64 value of 0.01 (the subtraction and comparison at
GameService.js:58 are exact on these doubles), so the claim's boundary example
"42.01 is rejected" is false of the code. -/
theorem tolerance_boundary_accepts_4201 :
    fl4201 = 5912381885807329 / 2 ^ 47 ∧
    ratAbs (fl4201 - 42) < fl001 ∧
    ratAbs (fl4201 - 42) < 1/100 ∧
    (submitAnswer ⟨false, .easy, ⟨some ⟨"Calculate: 40 + 2", 42, .easy⟩, true,
        some 1000, none, []⟩, []⟩ "u1" "ann" fl4201 1500 (Except.ok ())).1.isCorrect = true := by
  refine ⟨by norm_num [fl4201, roundUlp], by norm_num [fl4201, fl001, roundUlp, ratAbs],
    by norm_num [fl4201, roundUlp, ratAbs], ?_⟩
  rw [submitAnswer_isCorrect_iff _ "u1" "ann" fl4201 1500 (Except.ok ())
    ⟨"Calculate: 40 + 2", 42, .easy⟩ 1000 rfl rfl rfl]
  norm_num [fl4201, roundUlp, ratAbs]

/-- C5 amended: a submission against an active round with true answer v is
judged correct iff it differs from v by strictly less than 0.01, the submitted
value being the binary64 number the program receives; for v = 42 the binary64
value of 41.995 (difference 0.0050000000000025…) is accepted, and the binary64
value of 42.01 (difference 0.00999999999999801…, the literal's double is
inside the tolerance, not on the boundary) is accepted as well. -/
theorem submitAnswer_tolerance_binary64 (s : ServiceState) (uid un : String) (a : ℚ)
    (t : ℤ) (db : Except String Unit) (q : Question) (st : ℤ)
    (hact : s.gameState.isActive = true)
    (hq : s.gameState.currentQuestion = some q)
    (hst : s.gameState.startTime = some st) :
    ((submitAnswer s uid un a t db).1.isCorrect = true ↔ |a - q.answer| < 1/100) ∧
    (q.answer = 42 →
      (submitAnswer s uid un fl41995 t db).1.isCorrect = true ∧
      (submitAnswer s uid un fl4201 t db).1.isCorrect = true) := by
  refine ⟨(submitAnswer_isCorrect_iff s uid un a t db q st hact hq hst).trans
    (by rw [ratAbs_eq_abs]), fun h42 => ⟨?_, ?_⟩⟩
  · rw [submitAnswer_isCorrect_iff s uid un fl41995 t db q st hact hq hst, h42]
    norm_num [fl41995, roundUlp, ratAbs]
  · rw [submitAnswer_isCorrect_iff s uid un fl4201 t db q st hact hq hst, h42]
    norm_num [fl4201, roundUlp, ratAbs]

theorem submitAnswer_tolerance_binary64_witness :
    ((submitAnswer ⟨false, .easy, ⟨some ⟨"Calculate: 40 + 2", 42, .easy⟩, true,
        some 1000, none, []⟩, []⟩ "u1" "ann" fl41995 1500 (Except.ok ())).1.isCorrect = true ↔
      |fl41995 - (42:ℚ)| < 1/100) ∧
    (submitAnswer ⟨false, .easy, ⟨some ⟨"Calculate: 40 + 2", 42, .easy⟩, true,
        some 1000, none, []⟩, []⟩ "u1" "ann" fl41995 1500 (Except.ok ())).1.isCorrect = true ∧
    (submitAnswer ⟨false, .easy, ⟨some ⟨"Calculate: 40 + 2", 42, .easy⟩, true,
        some 1000, none, []⟩, []⟩ "u1" "ann" fl4201 1500 (Except.ok ())).1.isCorrect = true := by
  have h := submitAnswer_tolerance_binary64 ⟨false, .easy,
    ⟨some ⟨"Calculate: 40 + 2", 42, .easy⟩, true, some 1000, none, []⟩, []⟩
    "u1" "ann" fl41995 1500 (Except.ok ()) ⟨"Calculate: 40 + 2", 42, .easy⟩ 1000 rfl rfl rfl
  exact ⟨h.1, (h.2 rfl).1, (h.2 rfl).2⟩

/-- C7: on the winning path, a failed score-ledger write is swallowed: the
result is still {isCorrect:true, isWinner:true}, the round-closing state
update (winner set, round inactive) is identical to the success case, and the
submission lock is released on this exit path as on all others. -/
theorem submitAnswer_db_failure_swallowed (s : ServiceState) (uid un : String)
    (a : ℚ) (t : ℤ) (db : Except String Unit) (q : Question) (st : ℤ)
    (hact : s.gameState.isActive = true)
    (hq : s.gameState.currentQuestion = some q)
    (hst : s.gameState.startTime = some st)
    (hc : |a - q.answer| < 1/100)
    (hl : s.submissionLock = false)
    (hw : s.gameState.winner = none) :
    (submitAnswer s uid un a t db).1 = ⟨true, true, t, t - st⟩ ∧
    submitAnswer s uid un a t db = submitAnswer s uid un a t (Except.ok ()) ∧
    (submitAnswer s uid un a t db).2.submissionLock = false ∧
    (submitAnswer s uid un a t db).2.gameState.isActive = false ∧
    (submitAnswer s uid un a t db).2.gameState.winner = some ⟨uid, un, t⟩ := by
  rw [← ratAbs_eq_abs] at hc
  have hmain : ∀ db' : Except String Unit,
      submitAnswer s uid un a t db' =
        (⟨true, true, t, t - st⟩,
          { s with
              submissionLock := false
              gameState := { s.gameState with
                  winner := some ⟨uid, un, t⟩
                  isActive := false } }) := by
    intro db'
    unfold submitAnswer
    rw [hact, hq, hst]
    exact submitActive_win s uid un a t db' q st hc hl hw
  rw [hmain db, hmain (Except.ok ())]
  exact ⟨rfl, rfl, rfl, rfl, rfl⟩

theorem submitAnswer_db_failure_swallowed_witness :
    (submitAnswer ⟨false, .easy, ⟨some ⟨"Calculate: 40 + 2", 42, .easy⟩, true,
        some 1000, none, []⟩, []⟩ "u1" "ann" 42 1500 (Except.error "db down")).1 =
      ⟨true, true, 1500, 500⟩ ∧
    (submitAnswer ⟨false, .easy, ⟨some ⟨"Calculate: 40 + 2", 42, .easy⟩, true,
        some 1000, none, []⟩, []⟩ "u1" "ann" 42 1500 (Except.error "db down")).2.submissionLock = false := by
  have h := submitAnswer_db_failure_swallowed ⟨false, .easy,
    ⟨some ⟨"Calculate: 40 + 2", 42, .easy⟩, true, some 1000, none, []⟩, []⟩
    "u1" "ann" 42 1500 (Except.error "db down") ⟨"Calculate: 40 + 2", 42, .easy⟩ 1000
    rfl rfl rfl (by rw [show (42 : ℚ) - 42 = 0 by norm_num]; norm_num) rfl rfl
  exact ⟨h.1, h.2.2.1⟩

def setParticipants (s : ServiceState) (ps : List String) : ServiceState :=
  { s with gameState := { s.gameState with participants := ps } }

/-- C10: submitAnswer never reads the round's participant set: states differing
only in participants produce the same result and the same winner record; in
particular a userId absent from the participant set can be judged correct and
recorded as the winner. -/
theorem submitAnswer_participants_independent (s : ServiceState) (ps : List String)
    (uid un : String) (a : ℚ) (t : ℤ) (db : Except String Unit) :
    ((submitAnswer (setParticipants s ps) uid un a t db).1 =
        (submitAnswer s uid un a t db).1 ∧
      (submitAnswer (setParticipants s ps) uid un a t db).2.gameState.winner =
        (submitAnswer s uid un a t db).2.gameState.winner) ∧
    (∀ q st, s.gameState.isActive = true → s.gameState.currentQuestion = some q →
      s.gameState.startTime = some st → s.submissionLock = false →
      s.gameState.winner = none → |a - q.answer| < 1/100 →
      (submitAnswer s uid un a t db).1.isWinner = true ∧
      (submitAnswer s uid un a t db).2.gameState.winner = some ⟨uid, un, t⟩) := by
  constructor
  · obtain ⟨lock, d, ⟨cq, act, sTime, win, parts⟩, seen⟩ := s
    cases act <;> rcases cq with _ | q <;> rcases sTime with _ | st <;>
      simp only [submitAnswer, setParticipants, submitActive, updateUserScore_eq] <;>
        (try split_ifs) <;> simp
  · intro q st hact hq hst hl hw hc
    rw [← ratAbs_eq_abs] at hc
    have h : submitAnswer s uid un a t db =
        (⟨true, true, t, t - st⟩,
          { s with
              submissionLock := false
              gameState := { s.gameState with
                  winner := some ⟨uid, un, t⟩
                  isActive := false } }) := by
      unfold submitAnswer
      rw [hact, hq, hst]
      exact submitActive_win s uid un a t db q st hc hl hw
    rw [h]
    exact ⟨rfl, rfl⟩

theorem submitAnswer_participants_independent_witness :
    ((submitAnswer (setParticipants ⟨false, .easy, ⟨some ⟨"Calculate: 40 + 2", 42, .easy⟩,
        true, some 1000, none, ["socketA"]⟩, []⟩ ["x", "y"]) "ghost" "gus" 42 1500
        (Except.ok ())).1 =
      (submitAnswer ⟨false, .easy, ⟨some ⟨"Calculate: 40 + 2", 42, .easy⟩,
        true, some 1000, none, ["socketA"]⟩, []⟩ "ghost" "gus" 42 1500 (Except.ok ())).1) ∧
    (submitAnswer ⟨false, .easy, ⟨some ⟨"Calculate: 40 + 2", 42, .easy⟩,
        true, some 1000, none, ["socketA"]⟩, []⟩ "ghost" "gus" 42 1500
        (Except.ok ())).1.isWinner = true ∧
    (submitAnswer ⟨false, .easy, ⟨some ⟨"Calculate: 40 + 2", 42, .easy⟩,
        true, some 1000, none, ["socketA"]⟩, []⟩ "ghost" "gus" 42 1500
        (Except.ok ())).2.gameState.winner = some ⟨"ghost", "gus", 1500⟩ := by
  have h := submitAnswer_participants_independent ⟨false, .easy,
    ⟨some ⟨"Calculate: 40 + 2", 42, .easy⟩, true, some 1000, none, ["socketA"]⟩, []⟩
    ["x", "y"] "ghost" "gus" 42 1500 (Except.ok ())
  have h2 := h.2 ⟨"Calculate: 40 + 2", 42, .easy⟩ 1000 rfl rfl rfl rfl rfl
    (by rw [show (42 : ℚ) - 42 = 0 by norm_num]; norm_num)
  exact ⟨h.1.1, h2.1, h2.2⟩

/-- Once a winner record exists, any further submission leaves the state
untouched and is never a winner. -/
theorem stepSub_closed (s : ServiceState) (x : Sub)
    (h : s.gameState.winner.isSome = true) :
    (stepSub s x).2 = s ∧ (stepSub s x).1.isWinner = false := by
  obtain ⟨lock, d, ⟨cq, act, sTime, win, parts⟩, seen⟩ := s
  rcases win with _ | w
  · simp at h
  · cases act <;> rcases cq with _ | q <;> rcases sTime with _ | st <;>
      simp only [stepSub, submitAnswer, submitActive, updateUserScore_eq] <;>
        (try split_ifs) <;> simp_all

/-- A winning submission happens only when no winner existed, and it records
the submitter as winner and deactivates the round. -/
theorem stepSub_win (s : ServiceState) (x : Sub)
    (h : (stepSub s x).1.isWinner = true) :
    s.gameState.winner = none ∧
    (stepSub s x).2.gameState.winner = some ⟨x.userId, x.username, x.time⟩ ∧
    (stepSub s x).2.gameState.isActive = false := by
  obtain ⟨lock, d, ⟨cq, act, sTime, win, parts⟩, seen⟩ := s
  cases act <;> rcases cq with _ | q <;> rcases sTime with _ | st <;>
    rcases win with _ | w <;>
      simp only [stepSub, submitAnswer, submitActive, updateUserScore_eq] at h ⊢ <;>
        (try split_ifs at h ⊢) <;> simp_all

/-- A non-winning submission from a winner-free state leaves the state
untouched. -/
theorem stepSub_no_win (s : ServiceState) (x : Sub)
    (hw : s.gameState.winner = none)
    (h : (stepSub s x).1.isWinner = false) :
    (stepSub s x).2 = s := by
  obtain ⟨lock, d, ⟨cq, act, sTime, win, parts⟩, seen⟩ := s
  cases act <;> rcases cq with _ | q <;> rcases sTime with _ | st <;>
    rcases win with _ | w <;>
      simp only [stepSub, submitAnswer, submitActive, updateUserScore_eq] at h ⊢ <;>
        (try split_ifs at h ⊢) <;> simp_all

theorem runSubs_count_zero (s : ServiceState) (l : List Sub)
    (h : s.gameState.winner.isSome = true) :
    ((runSubs s l).1.countP (fun r => r.isWinner)) = 0 := by
  induction l generalizing s with
  | nil => simp [runSubs]
  | cons x xs ih =>
    have h1 := stepSub_closed s x h
    rw [runSubs]
    simp only [List.countP_cons, h1.2]
    rw [h1.1]
    simpa using ih s h

theorem runSubs_count_le_one (s : ServiceState) (l : List Sub)
    (h : s.gameState.winner = none) :
    ((runSubs s l).1.countP (fun r => r.isWinner)) ≤ 1 := by
  induction l generalizing s with
  | nil => simp [runSubs]
  | cons x xs ih =>
    rw [runSubs]
    simp only [List.countP_cons]
    rcases hw : (stepSub s x).1.isWinner with _ | _
    · have h1 := stepSub_no_win s x h hw
      rw [h1]
      simpa [hw] using ih s h
    · have h2 := stepSub_win s x hw
      have hz := runSubs_count_zero (stepSub s x).2 xs (by simp [h2.2.1])
      simp [hw, hz]

theorem statesAlong_closed (s : ServiceState) (l : List Sub)
    (hw : s.gameState.winner.isSome = true)
    (ha : s.gameState.isActive = false) :
    ∀ s' ∈ statesAlong s l,
      s'.gameState.winner.isSome = true → s'.gameState.isActive = false := by
  induction l generalizing s with
  | nil =>
    intro s' hs'
    simp [statesAlong] at hs'
    subst hs'
    intro _
    exact ha
  | cons x xs ih =>
    intro s' hs'
    simp only [statesAlong, List.mem_cons] at hs'
    rcases hs' with rfl | hs'
    · intro _
      exact ha
    · rw [(stepSub_closed s x hw).1] at hs'
      exact ih s hw ha s' hs'

theorem statesAlong_inv (s : ServiceState) (l : List Sub)
    (h : s.gameState.winner = none) :
    ∀ s' ∈ statesAlong s l,
      s'.gameState.winner.isSome = true → s'.gameState.isActive = false := by
  induction l generalizing s with
  | nil =>
    intro s' hs'
    simp [statesAlong] at hs'
    subst hs'
    intro hk
    rw [h] at hk
    simp at hk
  | cons x xs ih =>
    intro s' hs'
    simp only [statesAlong, List.mem_cons] at hs'
    rcases hs' with rfl | hs'
    · intro hk
      rw [h] at hk
      simp at hk
    · rcases hwin : (stepSub s x).1.isWinner with _ | _
      · rw [stepSub_no_win s x h hwin] at hs'
        exact ih s h s' hs'
      · have h2 := stepSub_win s x hwin
        exact statesAlong_closed (stepSub s x).2 xs (by simp [h2.2.1]) h2.2.2 s' hs'

/-- C1: within one round (the state produced by startNewQuestion, until it is
replaced or forcibly reset), at most one submission across all participants
returns isWinner:true, and every state along the round's lifetime in which a
winner record exists has the active flag false. -/
theorem round_single_winner (s : ServiceState) (users : List String) (G : Oracle)
    (now : ℤ) (subs : List Sub) :
    ((runSubs (startNewQuestion s users G now) subs).1.countP (fun r => r.isWinner)) ≤ 1 ∧
    ∀ s' ∈ statesAlong (startNewQuestion s users G now) subs,
      s'.gameState.winner.isSome = true → s'.gameState.isActive = false := by
  have hnone : (startNewQuestion s users G now).gameState.winner = none := rfl
  exact ⟨runSubs_count_le_one _ subs hnone, statesAlong_inv _ subs hnone⟩

theorem round_single_winner_witness :
    ((runSubs (startNewQuestion ⟨false, .medium, ⟨none, false, none, none, []⟩, []⟩
        ["s1"] (fun _ => 0) 1000)
        [⟨"u1", "ann", 2, 1500, Except.ok ()⟩, ⟨"u2", "bob", 2, 1600, Except.ok ()⟩]).1.countP
      (fun r => r.isWinner)) ≤ 1 ∧
    ∀ s' ∈ statesAlong (startNewQuestion ⟨false, .medium, ⟨none, false, none, none, []⟩, []⟩
        ["s1"] (fun _ => 0) 1000)
        [⟨"u1", "ann", 2, 1500, Except.ok ()⟩, ⟨"u2", "bob", 2, 1600, Except.ok ()⟩],
      s'.gameState.winner.isSome = true → s'.gameState.isActive = false :=
  round_single_winner ⟨false, .medium, ⟨none, false, none, none, []⟩, []⟩ ["s1"]
    (fun _ => 0) 1000
    [⟨"u1", "ann", 2, 1500, Except.ok ()⟩, ⟨"u2", "bob", 2, 1600, Except.ok ()⟩]

/-- submitAnswer on an active, winner-free, unlocked round with a correct
answer: the full winning transition. -/
theorem submitAnswer_active_win (s : ServiceState) (uid un : String) (a : ℚ)
    (t : ℤ) (db : Except String Unit) (q : Question) (st : ℤ)
    (hact : s.gameState.isActive = true)
    (hq : s.gameState.currentQuestion = some q)
    (hst : s.gameState.startTime = some st)
    (hc : ratAbs (a - q.answer) < 1/100)
    (hl : s.submissionLock = false)
    (hw : s.gameState.winner = none) :
    submitAnswer s uid un a t db =
      (⟨true, true, t, t - st⟩,
        { s with
            submissionLock := false
            gameState := { s.gameState with
                winner := some ⟨uid, un, t⟩
                isActive := false } }) := by
  unfold submitAnswer
  rw [hact, hq, hst]
  exact submitActive_win s uid un a t db q st hc hl hw

/-- C2 evidence: the late-correct branch (GameService.js:69-91) is dead code.
Winner assignment sets isActive=false in the same synchronous block (lines
93-98), before the only await, so every state with a winner also has
isActive=false, and a later correct submission takes the no-active-round path
(lines 43-53), returning {isCorrect:false, isWinner:false, timeTaken:0} — not
the {isCorrect:true, isWinner:false} the claim and spec describe. The first
conjunct runs a full round: question "Calculate: 1 + 1" (answer 2), a winning
submission of 2 at t=1500, then a second correct submission of 2 at t=1600
that gets the no-round result. -/
theorem late_correct_returns_no_round :
    ((runSubs (startNewQuestion ⟨false, .medium, ⟨none, false, none, none, []⟩, []⟩
        ["s1"] (fun _ => 0) 1000)
        [⟨"u1", "ann", 2, 1500, Except.ok ()⟩, ⟨"u2", "bob", 2, 1600, Except.ok ()⟩]).1 =
      [⟨true, true, 1500, 500⟩, ⟨false, false, 1600, 0⟩]) ∧
    (∀ (s : ServiceState) (uid un : String) (a : ℚ) (t : ℤ) (db : Except String Unit),
      s.gameState.winner.isSome = true → s.gameState.isActive = false →
      submitAnswer s uid un a t db = (⟨false, false, t, 0⟩, s)) := by
  constructor
  · have hb0 : buildChain (DIFFICULTY_CONFIG .easy) 2 (fun _ => 0) = (1, [(Op.add, 1)]) := by
      decide
    have hv0 : isValidAnswer (evalChain (1, [(Op.add, 1)])) = true := by
      have hlt : ratAbs (evalChain (1, [(Op.add, 1)])) < 1000000 := by
        norm_num [ratAbs, evalChain, evalChainAux]
      simp only [isValidAnswer, decide_eq_true_eq]
      exact hlt
    have harith : arithLoop (DIFFICULTY_CONFIG .easy) 2 (fun _ => 0) 20 1 =
        ((1, [(Op.add, 1)]), round2 (evalChain (1, [(Op.add, 1)])), true) := by
      rw [arithLoop]
      simp [show ∀ k, subOracle (fun _ => 0) k = (fun _ => (0 : ℕ)) from fun _ => rfl,
        hb0, hv0]
    have hans : (generateQuestion .easy (fun _ => 0) []).1.answer = 2 := by
      show (arithLoop (DIFFICULTY_CONFIG .easy) 2 (fun _ => 0) 20 1).2.1 = 2
      rw [harith]
      norm_num [round2, jsRound, evalChain, evalChainAux]
    have h1 : submitAnswer
        (startNewQuestion ⟨false, .medium, ⟨none, false, none, none, []⟩, []⟩
          ["s1"] (fun _ => 0) 1000) "u1" "ann" 2 1500 (Except.ok ()) =
        (⟨true, true, 1500, 1500 - 1000⟩,
          { startNewQuestion ⟨false, .medium, ⟨none, false, none, none, []⟩, []⟩
              ["s1"] (fun _ => 0) 1000 with
              submissionLock := false
              gameState := { (startNewQuestion ⟨false, .medium, ⟨none, false, none, none, []⟩, []⟩
                  ["s1"] (fun _ => 0) 1000).gameState with
                  winner := some ⟨"u1", "ann", 1500⟩
                  isActive := false } }) :=
      submitAnswer_active_win _ "u1" "ann" 2 1500 (Except.ok ())
        (generateQuestion .easy (fun _ => 0) []).1 1000 rfl rfl rfl
        (by rw [show ratAbs (2 - (generateQuestion .easy (fun _ => 0) []).1.answer) =
              ratAbs 0 by rw [hans]; norm_num]
            norm_num [ratAbs])
        rfl rfl
    simp only [runSubs, stepSub, h1]
    rw [submitAnswer_inactive _ "u2" "bob" 2 1600 (Except.ok ()) rfl]
    norm_num
  · intro s uid un a t db _ hin
    exact submitAnswer_inactive s uid un a t db hin

theorem late_correct_returns_no_round_witness :
    submitAnswer ⟨false, .easy, ⟨some ⟨"Calculate: 40 + 2", 42, .easy⟩, false,
        some 1000, some ⟨"u1", "ann", 1500⟩, []⟩, []⟩ "u2" "bob" 42 1600 (Except.ok ()) =
      (⟨false, false, 1600, 0⟩,
        ⟨false, .easy, ⟨some ⟨"Calculate: 40 + 2", 42, .easy⟩, false,
          some 1000, some ⟨"u1", "ann", 1500⟩, []⟩, []⟩) :=
  late_correct_returns_no_round.2 _ "u2" "bob" 42 1600 (Except.ok ()) rfl rfl

/-! ## Claim theorems: question generator -/

/-- The attempt loop either gives up or returns a question together with the
dedupe-updated seen-set. -/
theorem genQLoop_result (d : Difficulty) (G : Oracle) (seen : List String) :
    ∀ fuel k, genQLoop d G seen fuel k = none ∨
      ∃ q, genQLoop d G seen fuel k = some (q, dedupeAdd seen (questionKey q)) := by
  intro fuel
  induction fuel with
  | zero => intro k; left; rfl
  | succ n ih =>
    intro k
    rw [genQLoop]
    split_ifs with h
    · right
      exact ⟨_, rfl⟩
    · exact ih (k + 1)

/-- One dedupe step keeps the set at ≤ 150 keys, and a trim leaves exactly the
100 most recently inserted keys (the length-100 suffix in insertion order). -/
theorem dedupeAdd_spec (seen : List String) (key : String) (h : seen.length ≤ 150) :
    (dedupeAdd seen key).length ≤ 150 ∧
    (dedupeAdd seen key = seen ∨
      (dedupeAdd seen key = seen ++ [key] ∧ (seen ++ [key]).length ≤ 150) ∨
      ((seen ++ [key]).length = 151 ∧ dedupeAdd seen key = (seen ++ [key]).drop 51 ∧
        (dedupeAdd seen key).length = 100)) := by
  unfold dedupeAdd
  dsimp only
  split_ifs with hc ht ht
  · exact absurd ht (by omega)
  · exact ⟨h, Or.inl rfl⟩
  · have hlen : (seen ++ [key]).length = 151 := by
      simp only [List.length_append, List.length_singleton] at ht ⊢
      omega
    have hdrop : (seen ++ [key]).length - 100 = 51 := by omega
    have hdl : ((seen ++ [key]).drop 51).length = 100 := by
      rw [List.length_drop, hlen]
    rw [hdrop]
    exact ⟨by rw [hdl]; norm_num, Or.inr (Or.inr ⟨hlen, rfl, hdl⟩)⟩
  · have hlen : (seen ++ [key]).length ≤ 150 := by omega
    exact ⟨hlen, Or.inr (Or.inl ⟨rfl, hlen⟩)⟩

/-- C9: after every generateQuestion call the dedupe set holds at most 150
keys, and whenever a trim occurs the retained set is exactly the 100 most
recently inserted keys. -/
theorem generateQuestion_dedupe_bounded (d : Difficulty) (G : Oracle)
    (seen : List String) (h : seen.length ≤ 150) :
    (generateQuestion d G seen).2.length ≤ 150 ∧
    ((generateQuestion d G seen).2 = seen ∨
      ∃ key, ((generateQuestion d G seen).2 = seen ++ [key] ∧
          (seen ++ [key]).length ≤ 150) ∨
        ((seen ++ [key]).length = 151 ∧
          (generateQuestion d G seen).2 = (seen ++ [key]).drop 51 ∧
          (generateQuestion d G seen).2.length = 100)) := by
  unfold generateQuestion
  rcases genQLoop_result d G seen 50 0 with hn | ⟨q, hq⟩
  · rw [hn]
    exact ⟨h, Or.inl rfl⟩
  · rw [hq]
    have hs := dedupeAdd_spec seen (questionKey q) h
    refine ⟨hs.1, ?_⟩
    rcases hs.2 with h1 | h1 | h1
    · left
      exact h1
    · right
      exact ⟨questionKey q, Or.inl h1⟩
    · right
      exact ⟨questionKey q, Or.inr ⟨h1.1, h1.2.1, h1.2.2⟩⟩

theorem generateQuestion_dedupe_bounded_witness :
    (generateQuestion .easy (fun _ => 0) []).2.length ≤ 150 ∧
    ((generateQuestion .easy (fun _ => 0) []).2 = [] ∨
      ∃ key, ((generateQuestion .easy (fun _ => 0) []).2 = [] ++ [key] ∧
          ([] ++ [key]).length ≤ 150) ∨
        (([] ++ [key]).length = 151 ∧
          (generateQuestion .easy (fun _ => 0) []).2 = ([] ++ [key]).drop 51 ∧
          (generateQuestion .easy (fun _ => 0) []).2.length = 100)) :=
  generateQuestion_dedupe_bounded .easy (fun _ => 0) [] (by decide)

/-- Oracle driving generateQuestion to the hard powers archetype with base 20,
power 5, and a non-square draw (5) for the large-result fallback check. -/
def oracleC3 : Oracle := fun n =>
  if n = Nat.pair 0 0 then 4
  else if n = Nat.pair 0 (Nat.pair 1 0) then 18
  else if n = Nat.pair 0 (Nat.pair 1 1) then 3
  else if n = Nat.pair 0 (Nat.pair 1 2) then 1
  else 0

/-- C3 counterexample: generateQuestion on hard difficulty can return the
powers question 20^5 whose answer 3,200,000 has magnitude ≥ 1,000,000 — the
validity check is applied only inside the arithmetic archetype. -/
theorem generateQuestion_invalid_magnitude :
    (generateQuestion .hard oracleC3 []).1.problem = "Calculate: 20^5" ∧
    (generateQuestion .hard oracleC3 []).1.answer = 3200000 ∧
    ¬ (|(generateQuestion .hard oracleC3 []).1.answer| < 1000000) := by
  have h : (generateQuestion .hard oracleC3 []).1.answer = (3200000 : ℚ) := by decide
  refine ⟨by decide, h, ?_⟩
  rw [h, abs_of_nonneg (by norm_num : (0:ℚ) ≤ 3200000)]
  norm_num

theorem abs_natCast_q (n : ℕ) : |(n : ℚ)| = (n : ℚ) :=
  abs_of_nonneg (Nat.cast_nonneg n)

theorem generatePowers_answer_bound (d : Difficulty) (g : Oracle) :
    |(generatePowers d g).answer| ≤ 3200000 := by
  unfold generatePowers
  have hbmax : maxBaseOf d ≤ 20 := by cases d <;> simp [maxBaseOf]
  have hpmax : maxPowerOf d ≤ 5 := by cases d <;> simp [maxPowerOf]
  have hb : randomNumber (g 0) 2 (maxBaseOf d) ≤ 20 :=
    le_trans (randomNumber_le _ 2 _ (by cases d <;> simp [maxBaseOf])) hbmax
  have hp : randomNumber (g 1) 2 (maxPowerOf d) ≤ 5 :=
    le_trans (randomNumber_le _ 2 _ (by cases d <;> simp [maxPowerOf])) hpmax
  have hpow : randomNumber (g 0) 2 (maxBaseOf d) ^ randomNumber (g 1) 2 (maxPowerOf d)
      ≤ 3200000 :=
    calc randomNumber (g 0) 2 (maxBaseOf d) ^ randomNumber (g 1) 2 (maxPowerOf d)
        ≤ 20 ^ randomNumber (g 1) 2 (maxPowerOf d) := Nat.pow_le_pow_left hb _
      _ ≤ 20 ^ 5 := Nat.pow_le_pow_right (by norm_num) hp
      _ = 3200000 := by norm_num
  dsimp only
  split_ifs with h1 h2
  · have hnum : randomNumber (g 2) 4 100 ≤ 100 := randomNumber_le _ 4 100 (by norm_num)
    have hs : natSqrt (randomNumber (g 2) 4 100) ≤ 10 := by
      by_contra hcon
      push_neg at hcon
      have h11 : 11 ≤ natSqrt (randomNumber (g 2) 4 100) := hcon
      have := Nat.mul_le_mul h11 h11
      omega
    rw [abs_natCast_q]
    have h10 : ((natSqrt (randomNumber (g 2) 4 100) : ℕ) : ℚ) ≤ (10 : ℚ) := by
      exact_mod_cast hs
    linarith
  · rw [abs_natCast_q]
    exact_mod_cast hpow
  · rw [abs_natCast_q]
    exact_mod_cast hpow

theorem generateAlgebra_answer_bound (d : Difficulty) (g : Oracle) :
    |(generateAlgebra d g).answer| ≤ 3200000 := by
  unfold generateAlgebra
  have hcfg : (algebraConfig d).1 ≤ (algebraConfig d).2 ∧ (algebraConfig d).2 ≤ 100 := by
    cases d <;> simp [algebraConfig]
  have hx : randomNumber (g 2) (algebraConfig d).1 (algebraConfig d).2 ≤ 100 :=
    le_trans (randomNumber_le _ _ _ hcfg.1) hcfg.2
  have ha : randomNumber (g 0) (algebraConfig d).1 (algebraConfig d).2 ≤ 100 :=
    le_trans (randomNumber_le _ _ _ hcfg.1) hcfg.2
  have hb : randomNumber (g 1) (algebraConfig d).1 (algebraConfig d).2 ≤ 100 :=
    le_trans (randomNumber_le _ _ _ hcfg.1) hcfg.2
  have hcast : ∀ n : ℕ, n ≤ 100 → |(n : ℚ)| ≤ 3200000 := by
    intro n hn
    rw [abs_natCast_q]
    have : (n : ℚ) ≤ 100 := by exact_mod_cast hn
    linarith
  have hidx : (g 3) % 4 = 0 ∨ (g 3) % 4 = 1 ∨ (g 3) % 4 = 2 ∨ (g 3) % 4 = 3 := by omega
  rcases hidx with h | h | h | h <;> rw [h] <;> simp only [algebraForms, List.getD_cons_zero,
    List.getD_cons_succ] <;> exact hcast _ hx

theorem arithLoop_answer (cfg : DiffConfig) (nt : ℕ) (g : Oracle) :
    ∀ fuel k, (arithLoop cfg nt g fuel k).2.1 = 0 ∨
      ∃ r : ℚ, ratAbs r < 1000000 ∧ (arithLoop cfg nt g fuel k).2.1 = round2 r := by
  intro fuel
  induction fuel with
  | zero => intro k; left; rfl
  | succ n ih =>
    intro k
    rw [arithLoop]
    try dsimp only
    split_ifs with hv hf
    · right
      refine ⟨evalChain (buildChain cfg nt (subOracle g k)), ?_, rfl⟩
      simpa [isValidAnswer] using hv
    · left
      rfl
    · exact ih (k + 1)

theorem generateArithmetic_answer_bound (d : Difficulty) (g : Oracle) :
    |(generateArithmetic d g).answer| ≤ 3200000 := by
  unfold generateArithmetic
  show |(arithLoop (DIFFICULTY_CONFIG d) (g 0 % ((DIFFICULTY_CONFIG d).maxTerms - 1) + 2)
      g 20 1).2.1| ≤ 3200000
  rcases arithLoop_answer (DIFFICULTY_CONFIG d)
      ((g 0) % ((DIFFICULTY_CONFIG d).maxTerms - 1) + 2) g 20 1 with h | ⟨r, hr, h⟩
  · rw [h]
    norm_num
  · rw [h]
    have h2 := round2_abs_le r
    rw [ratAbs_eq_abs] at hr
    linarith

theorem generateFractions_answer_bound (d : Difficulty) (g : Oracle) :
    |(generateFractions d g).answer| ≤ 3200000 := by
  unfold generateFractions
  dsimp only
  have hmd10 : 10 ≤ maxDenomOf d := by cases d <;> simp [maxDenomOf]
  have hn1le : randomNumber (g 0) 1 (maxDenomOf d - 1) ≤ maxDenomOf d - 1 :=
    randomNumber_le _ 1 _ (by omega)
  have hd1ge : randomNumber (g 0) 1 (maxDenomOf d - 1) + 1 ≤
      randomNumber (g 1) (randomNumber (g 0) 1 (maxDenomOf d - 1) + 1) (maxDenomOf d) :=
    randomNumber_ge _ _ _
  have hn2le : randomNumber (g 2) 1 (maxDenomOf d - 1) ≤ maxDenomOf d - 1 :=
    randomNumber_le _ 1 _ (by omega)
  have hd2ge : randomNumber (g 2) 1 (maxDenomOf d - 1) + 1 ≤
      randomNumber (g 3) (randomNumber (g 2) 1 (maxDenomOf d - 1) + 1) (maxDenomOf d) :=
    randomNumber_ge _ _ _
  set n1 := randomNumber (g 0) 1 (maxDenomOf d - 1)
  set d1 := randomNumber (g 1) (n1 + 1) (maxDenomOf d)
  set n2 := randomNumber (g 2) 1 (maxDenomOf d - 1)
  set d2 := randomNumber (g 3) (n2 + 1) (maxDenomOf d)
  have hnum1 : n1 * d2 ≤ d1 * d2 := Nat.mul_le_mul_right _ (by omega)
  have hnum2 : n2 * d1 ≤ d1 * d2 := by
    calc n2 * d1 ≤ d2 * d1 := Nat.mul_le_mul_right _ (by omega)
      _ = d1 * d2 := Nat.mul_comm _ _
  have hdpos : 0 < d1 * d2 := Nat.mul_pos (by omega) (by omega)
  have habs : ∀ v : ℚ, |v| ≤ 2 → |round3 v| ≤ 3200000 := by
    intro v hv
    have := round3_abs_le v
    linarith
  apply habs
  have hA : ((n1 * d2 : ℕ) : ℚ) ≤ ((d1 * d2 : ℕ) : ℚ) := by exact_mod_cast hnum1
  have hB : ((n2 * d1 : ℕ) : ℚ) ≤ ((d1 * d2 : ℕ) : ℚ) := by exact_mod_cast hnum2
  have hDpos : (0:ℚ) < ((d1 * d2 : ℕ) : ℚ) := by exact_mod_cast hdpos
  have hAp : (0:ℚ) ≤ ((n1 * d2 : ℕ) : ℚ) := Nat.cast_nonneg _
  have hBp : (0:ℚ) ≤ ((n2 * d1 : ℕ) : ℚ) := Nat.cast_nonneg _
  rw [abs_div, abs_of_pos hDpos, div_le_iff₀ hDpos]
  split_ifs with hAdd
  · rw [abs_of_nonneg (by linarith)]
    linarith
  · rw [abs_le]
    constructor <;> linarith

theorem generatePercentages_answer_bound (d : Difficulty) (g : Oracle) :
    |(generatePercentages d g).answer| ≤ 3200000 := by
  unfold generatePercentages
  dsimp only
  have hb : randomNumber (g 0) 50 1000 ≤ 1000 := randomNumber_le _ _ _ (by norm_num)
  have hp : randomNumber (g 1) 5 95 ≤ 95 := randomNumber_le _ _ _ (by norm_num)
  set b := randomNumber (g 0) 50 1000
  set p := randomNumber (g 1) 5 95
  have hdir : |round2 (((b * p : ℕ) : ℚ) / 100)| ≤ 3200000 := by
    have h1 : b * p ≤ 95000 := Nat.mul_le_mul hb hp
    have h2 : ((b * p : ℕ) : ℚ) ≤ 95000 := by exact_mod_cast h1
    have h0 : (0:ℚ) ≤ ((b * p : ℕ) : ℚ) := Nat.cast_nonneg _
    have h3 : |((b * p : ℕ) : ℚ) / 100| ≤ 950 := by
      rw [abs_div, abs_of_nonneg h0, abs_of_pos (by norm_num : (0:ℚ) < 100),
        div_le_iff₀ (by norm_num : (0:ℚ) < 100)]
      linarith
    have := round2_abs_le (((b * p : ℕ) : ℚ) / 100)
    linarith
  have hinv : |((p : ℕ) : ℚ)| ≤ 3200000 := by
    rw [abs_natCast_q]
    have : ((p : ℕ) : ℚ) ≤ 95 := by exact_mod_cast hp
    linarith
  have hidx : (g 2) % 2 = 0 ∨ (g 2) % 2 = 1 := by omega
  rcases hidx with h | h <;> rw [h] <;>
    simp only [List.getD_cons_zero, List.getD_cons_succ]
  · exact hdir
  · exact hinv

theorem generateMixed_answer_bound (d : Difficulty) (g : Oracle) :
    |(generateMixed d g).answer| ≤ 3200000 := by
  unfold generateMixed
  dsimp only
  have hhi : Nat.min (DIFFICULTY_CONFIG d).max 50 = 50 := by cases d <;> rfl
  have hmin1 : (DIFFICULTY_CONFIG d).min = 1 := by cases d <;> rfl
  have hbnd : ∀ i : ℕ, 1 ≤ randomNumber (g i) (DIFFICULTY_CONFIG d).min
      (Nat.min (DIFFICULTY_CONFIG d).max 50) ∧
      randomNumber (g i) (DIFFICULTY_CONFIG d).min
        (Nat.min (DIFFICULTY_CONFIG d).max 50) ≤ 50 := by
    intro i
    constructor
    · have := randomNumber_ge (g i) (DIFFICULTY_CONFIG d).min
        (Nat.min (DIFFICULTY_CONFIG d).max 50)
      omega
    · have := randomNumber_le (g i) (DIFFICULTY_CONFIG d).min
        (Nat.min (DIFFICULTY_CONFIG d).max 50) (by omega)
      omega
  set a := randomNumber (g 0) (DIFFICULTY_CONFIG d).min (Nat.min (DIFFICULTY_CONFIG d).max 50)
  set b := randomNumber (g 1) (DIFFICULTY_CONFIG d).min (Nat.min (DIFFICULTY_CONFIG d).max 50)
  set c := randomNumber (g 2) (DIFFICULTY_CONFIG d).min (Nat.min (DIFFICULTY_CONFIG d).max 50)
  have haQ : (1:ℚ) ≤ (a:ℚ) ∧ (a:ℚ) ≤ 50 :=
    ⟨by exact_mod_cast (hbnd 0).1, by exact_mod_cast (hbnd 0).2⟩
  have hbQ : (1:ℚ) ≤ (b:ℚ) ∧ (b:ℚ) ≤ 50 :=
    ⟨by exact_mod_cast (hbnd 1).1, by exact_mod_cast (hbnd 1).2⟩
  have hcQ : (1:ℚ) ≤ (c:ℚ) ∧ (c:ℚ) ≤ 50 :=
    ⟨by exact_mod_cast (hbnd 2).1, by exact_mod_cast (hbnd 2).2⟩
  obtain ⟨ha1, ha50⟩ := haQ
  obtain ⟨hb1, hb50⟩ := hbQ
  obtain ⟨hc1, hc50⟩ := hcQ
  have hround : ∀ v : ℚ, |v| ≤ 5000 → |round2 v| ≤ 3200000 := by
    intro v hv
    have := round2_abs_le v
    linarith
  have hidx : (g 3) % 6 = 0 ∨ (g 3) % 6 = 1 ∨ (g 3) % 6 = 2 ∨ (g 3) % 6 = 3 ∨
      (g 3) % 6 = 4 ∨ (g 3) % 6 = 5 := by omega
  rcases hidx with h | h | h | h | h | h <;> rw [h] <;>
    simp only [mixedForms, List.getD_cons_zero, List.getD_cons_succ] <;>
    apply hround
  · rw [abs_of_nonneg (by nlinarith)]
    nlinarith
  · rw [abs_of_nonneg (by nlinarith)]
    nlinarith
  · rw [abs_of_nonneg (by positivity)]
    have hds : ((a:ℚ) + b) / c ≤ (a:ℚ) + b := div_le_self (by linarith) hc1
    linarith
  · rw [abs_of_nonneg (by nlinarith)]
    nlinarith
  · rw [abs_le]
    constructor <;> nlinarith
  · rw [abs_le]
    constructor <;> nlinarith

theorem generateSimpleArithmetic_shape (d : Difficulty) (g : Oracle) :
    ∃ a b : ℕ, 1 ≤ a ∧ a ≤ 1000 ∧ 1 ≤ b ∧ b ≤ 1000 ∧
      ((generateSimpleArithmetic d g).answer = (a : ℚ) + b ∨
       (generateSimpleArithmetic d g).answer = (a : ℚ) - b ∨
       (generateSimpleArithmetic d g).answer = (a : ℚ) * b) := by
  unfold generateSimpleArithmetic
  dsimp only
  have hmin1 : (DIFFICULTY_CONFIG d).min = 1 := by cases d <;> rfl
  have hmax : (DIFFICULTY_CONFIG d).max ≤ 1000 := by cases d <;> simp [DIFFICULTY_CONFIG]
  have hmax1 : 1 ≤ (DIFFICULTY_CONFIG d).max := by cases d <;> simp [DIFFICULTY_CONFIG]
  have hbnd : ∀ i : ℕ, 1 ≤ randomNumber (g i) (DIFFICULTY_CONFIG d).min (DIFFICULTY_CONFIG d).max ∧
      randomNumber (g i) (DIFFICULTY_CONFIG d).min (DIFFICULTY_CONFIG d).max ≤ 1000 := by
    intro i
    constructor
    · have := randomNumber_ge (g i) (DIFFICULTY_CONFIG d).min (DIFFICULTY_CONFIG d).max
      omega
    · have := randomNumber_le (g i) (DIFFICULTY_CONFIG d).min (DIFFICULTY_CONFIG d).max
        (by omega)
      omega
  refine ⟨randomNumber (g 0) (DIFFICULTY_CONFIG d).min (DIFFICULTY_CONFIG d).max,
    randomNumber (g 1) (DIFFICULTY_CONFIG d).min (DIFFICULTY_CONFIG d).max,
    (hbnd 0).1, (hbnd 0).2, (hbnd 1).1, (hbnd 1).2, ?_⟩
  have hidx : (g 2) % 3 = 0 ∨ (g 2) % 3 = 1 ∨ (g 2) % 3 = 2 := by omega
  rcases hidx with h | h | h <;> rw [h] <;>
    simp [List.getD_cons_zero, List.getD_cons_succ]

theorem generateSimpleArithmetic_answer_bound (d : Difficulty) (g : Oracle) :
    |(generateSimpleArithmetic d g).answer| ≤ 3200000 := by
  obtain ⟨a, b, ha1, ha, hb1, hb, hcase⟩ := generateSimpleArithmetic_shape d g
  have haQ : (1:ℚ) ≤ (a:ℚ) ∧ (a:ℚ) ≤ 1000 := ⟨by exact_mod_cast ha1, by exact_mod_cast ha⟩
  have hbQ : (1:ℚ) ≤ (b:ℚ) ∧ (b:ℚ) ≤ 1000 := ⟨by exact_mod_cast hb1, by exact_mod_cast hb⟩
  obtain ⟨ha1Q, haM⟩ := haQ
  obtain ⟨hb1Q, hbM⟩ := hbQ
  rcases hcase with h | h | h <;> rw [h] <;> rw [abs_le] <;> constructor <;> nlinarith

theorem generateQuestionByType_answer_bound (t : QType) (d : Difficulty) (g : Oracle) :
    |(generateQuestionByType t d g).answer| ≤ 3200000 := by
  cases t
  · exact generateArithmetic_answer_bound d g
  · exact generateAlgebra_answer_bound d g
  · exact generateFractions_answer_bound d g
  · exact generatePercentages_answer_bound d g
  · exact generatePowers_answer_bound d g
  · exact generateMixed_answer_bound d g

theorem genQLoop_answer_bound (d : Difficulty) (G : Oracle) (seen : List String) :
    ∀ fuel k q seen', genQLoop d G seen fuel k = some (q, seen') →
      |q.answer| ≤ 3200000 := by
  intro fuel
  induction fuel with
  | zero =>
    intro k q s' h
    exact absurd h (by simp [genQLoop])
  | succ n ih =>
    intro k q s' h
    rw [genQLoop] at h
    split_ifs at h with hcond
    · simp only [Option.some_inj, Prod.mk.injEq] at h
      rw [← h.1]
      exact generateQuestionByType_answer_bound _ _ _
    · exact ih (k + 1) q s' h

/-- C3 amended: generateQuestion caps the retry loop at 50 attempts, after
which it degrades to the two-term add/sub/mul fallback, which always equals
the exact value of its displayed operation and cannot fail; every answer is a
well-defined rational, but the magnitude bound over all archetypes is
3,200,000 (hard powers can reach 20^5), not 1,000,000 — the strict <1,000,000
validity check applies only inside the arithmetic archetype's retry loop. -/
theorem generateQuestion_bounded (d : Difficulty) (G : Oracle) (seen : List String) :
    |(generateQuestion d G seen).1.answer| ≤ 3200000 ∧
    ((∃ q seen', genQLoop d G seen 50 0 = some (q, seen') ∧
        (generateQuestion d G seen).1 = q) ∨
      (genQLoop d G seen 50 0 = none ∧
        (generateQuestion d G seen).1 = generateSimpleArithmetic d (subOracle G 999))) ∧
    (∀ g' : Oracle, ∃ a b : ℕ, 1 ≤ a ∧ a ≤ 1000 ∧ 1 ≤ b ∧ b ≤ 1000 ∧
      ((generateSimpleArithmetic d g').answer = (a : ℚ) + b ∨
       (generateSimpleArithmetic d g').answer = (a : ℚ) - b ∨
       (generateSimpleArithmetic d g').answer = (a : ℚ) * b)) := by
  refine ⟨?_, ?_, fun g' => generateSimpleArithmetic_shape d g'⟩
  · rcases hr : genQLoop d G seen 50 0 with _ | ⟨q, s'⟩
    · unfold generateQuestion
      rw [hr]
      exact generateSimpleArithmetic_answer_bound d _
    · have hb := genQLoop_answer_bound d G seen 50 0 q s' hr
      unfold generateQuestion
      rw [hr]
      exact hb
  · rcases hr : genQLoop d G seen 50 0 with _ | ⟨q, s'⟩
    · right
      refine ⟨rfl, ?_⟩
      unfold generateQuestion
      rw [hr]
    · left
      refine ⟨q, s', rfl, ?_⟩
      unfold generateQuestion
      rw [hr]

/-- Oracle selecting the inverse-percentage variant with base 50, percentage
33: the text then shows the rounded operand 152. -/
def oracleC4p : Oracle := fun n =>
  if n = 0 then 0 else if n = 1 then 28 else if n = 2 then 1 else 0

/-- Constant oracle that makes every arithmetic attempt on hard build
899 * 899 * 899 (invalid: ≥ 1,000,000), exhausting the 20-attempt loop. -/
def oracleC4a : Oracle := fun _ => 898

theorem subOracle_c4a (k : ℕ) : subOracle oracleC4a k = oracleC4a := rfl

theorem buildChain_c4a : buildChain (DIFFICULTY_CONFIG .hard) 3 oracleC4a =
    (899, [(Op.mul, 899), (Op.mul, 899)]) := by decide

theorem invalid_c4a :
    isValidAnswer (evalChain (899, [(Op.mul, 899), (Op.mul, 899)])) = false := by
  have h : ¬ (ratAbs (evalChain (899, [(Op.mul, 899), (Op.mul, 899)])) < 1000000) := by
    norm_num [ratAbs, evalChain, evalChainAux]
  simp only [isValidAnswer, decide_eq_false_iff_not]
  exact h

theorem arithLoop_c4a : ∀ fuel k,
    arithLoop (DIFFICULTY_CONFIG .hard) 3 oracleC4a (fuel + 1) k =
      ((899, [(Op.mul, 899), (Op.mul, 899)]), 0, false) := by
  intro fuel
  induction fuel with
  | zero =>
    intro k
    rw [arithLoop]
    simp [subOracle_c4a, buildChain_c4a, invalid_c4a]
  | succ n ih =>
    intro k
    rw [arithLoop]
    simp [subOracle_c4a, buildChain_c4a, invalid_c4a, ih (k + 1)]

theorem generateArithmetic_c4a : generateArithmetic .hard oracleC4a =
    ⟨"Calculate: 899 * 899 * 899", 0, .hard⟩ := by
  unfold generateArithmetic
  have h20 : arithLoop (DIFFICULTY_CONFIG .hard)
      (oracleC4a 0 % ((DIFFICULTY_CONFIG .hard).maxTerms - 1) + 2) oracleC4a 20 1 =
      ((899, [(Op.mul, 899), (Op.mul, 899)]), 0, false) := by
    have h3 : (oracleC4a 0 % ((DIFFICULTY_CONFIG .hard).maxTerms - 1) + 2) = 3 := by decide
    rw [h3]
    exact arithLoop_c4a 19 1
  dsimp only
  rw [h20]
  decide

theorem generatePercentages_c4p : generatePercentages .medium oracleC4p =
    ⟨"50 is what percent of 152?", 33, .medium⟩ := by
  have h1 : generatePercentages .medium oracleC4p =
      ⟨percentInverseProblem 50 (jsRound (((50 * 100 : ℕ) : ℚ) / ((33 : ℕ) : ℚ))),
        ((33 : ℕ) : ℚ), .medium⟩ := by
    unfold generatePercentages
    norm_num [oracleC4p, randomNumber]
  have h2 : jsRound (((50 * 100 : ℕ) : ℚ) / ((33 : ℕ) : ℚ)) = 152 := by
    norm_num [jsRound]
  rw [h1, h2]
  decide

/-- C4 counterexample: (i) the inverse-percentage variant stores the original
percentage while the problem text shows a rounded operand — for base 50 and
percentage 33 the text reads "50 is what percent of 152?" but re-evaluating
100·50/152 gives 32.894…, off the stored 33 by 2/19 > 0.01; (ii) when the
arithmetic archetype's 20-attempt validity loop never succeeds, the question
carries answer 0 alongside the last attempted expression — for the constant
898 oracle on hard the text reads "Calculate: 899 * 899 * 899" with answer 0,
off the re-evaluated 726,572,699. -/
theorem archetype_reEval_mismatch :
    ((generatePercentages .medium oracleC4p).problem = "50 is what percent of 152?" ∧
      (generatePercentages .medium oracleC4p).answer = 33 ∧
      ¬ (|100 * (50 : ℚ) / 152 - (generatePercentages .medium oracleC4p).answer| < 1/100)) ∧
    ((generateArithmetic .hard oracleC4a).problem = "Calculate: 899 * 899 * 899" ∧
      (generateArithmetic .hard oracleC4a).answer = 0 ∧
      ¬ (|evalChain (899, [(Op.mul, 899), (Op.mul, 899)]) -
          (generateArithmetic .hard oracleC4a).answer| < 1/100)) := by
  refine ⟨⟨by rw [generatePercentages_c4p], by rw [generatePercentages_c4p], ?_⟩,
    ⟨by rw [generateArithmetic_c4a], by rw [generateArithmetic_c4a], ?_⟩⟩
  · rw [generatePercentages_c4p]
    show ¬ (|100 * (50 : ℚ) / 152 - 33| < 1/100)
    rw [show (100 * (50 : ℚ) / 152 - 33) = -(2/19) by norm_num, abs_neg,
      abs_of_nonneg (by norm_num : (0:ℚ) ≤ 2/19)]
    norm_num
  · rw [generateArithmetic_c4a]
    show ¬ (|evalChain (899, [(Op.mul, 899), (Op.mul, 899)]) - (0 : ℚ)| < 1/100)
    rw [show (evalChain (899, [(Op.mul, 899), (Op.mul, 899)]) - (0:ℚ)) = 726572699 by
      norm_num [evalChain, evalChainAux]]
    rw [abs_of_nonneg (by norm_num : (0:ℚ) ≤ 726572699)]
    norm_num

/-- Re-evaluation of a fractions problem from its displayed operands. -/
def fracReEval (n1 d1 n2 d2 : ℕ) (isAdd : Bool) : ℚ :=
  if isAdd then (n1 : ℚ) / d1 + (n2 : ℚ) / d2 else (n1 : ℚ) / d1 - (n2 : ℚ) / d2

/-- The right-hand-side constant displayed in algebra form `i` for drawn
a, b, x (the value the problem text prints). -/
def algebraShown (i a b x : ℕ) : ℚ :=
  if i = 0 then ((a * x + b : ℕ) : ℚ)
  else if i = 1 then ((a * x : ℕ) : ℚ) - ((b : ℕ) : ℚ)
  else if i = 2 then ((a * (x + b) : ℕ) : ℚ)
  else ((a * x : ℕ) : ℚ)

/-- Solving algebra form `i` for x from the displayed operands a, b and the
displayed right-hand side c. -/
def algebraReEval (i a b : ℕ) (c : ℚ) : ℚ :=
  if i = 0 then (c - b) / a
  else if i = 1 then (c + b) / a
  else if i = 2 then c / a - b
  else c / a

theorem algebraReEval_eq (i a b x : ℕ) (ha : 1 ≤ a) :
    algebraReEval i a b (algebraShown i a b x) = (x : ℚ) := by
  have ha0 : (a : ℚ) ≠ 0 := Nat.cast_ne_zero.mpr (by omega)
  unfold algebraReEval algebraShown
  split_ifs <;> push_cast <;> field_simp

/-- A successful exit of the validity loop returns the rounded value of the
expression it returns. -/
theorem arithLoop_valid (cfg : DiffConfig) (nt : ℕ) (g : Oracle) :
    ∀ fuel k, (arithLoop cfg nt g fuel k).2.2 = true →
      (arithLoop cfg nt g fuel k).2.1 = round2 (evalChain (arithLoop cfg nt g fuel k).1) := by
  intro fuel
  induction fuel with
  | zero =>
    intro k h
    simp [arithLoop] at h
  | succ n ih =>
    intro k h
    rw [arithLoop] at h ⊢
    split_ifs at h ⊢ with h1 h2
    · rfl
    · exact ih (k + 1) h

/-- C4 amended: for every archetype except the inverse-percentage variant and
arithmetic questions whose 20-attempt validity loop fails, re-evaluating the
formula on the literal operands of the problem text reproduces the stored
answer within the archetype's rounding precision (half an ulp of 2 decimal
places, 3 for fractions; algebra and powers are exact). -/
theorem archetype_reEval (d : Difficulty) (g : Oracle) :
    ((arithLoop (DIFFICULTY_CONFIG d) (g 0 % ((DIFFICULTY_CONFIG d).maxTerms - 1) + 2)
        g 20 1).2.2 = true →
      ∃ c : Chain, (generateArithmetic d g).problem = "Calculate: " ++ chainStr c ∧
        |evalChain c - (generateArithmetic d g).answer| ≤ 1/200) ∧
    (∃ i a b x : ℕ, i < 4 ∧ 1 ≤ a ∧
      (generateAlgebra d g).problem = ((algebraForms a b x).getD i ("", 0)).1 ∧
      (generateAlgebra d g).answer = (x : ℚ) ∧
      algebraReEval i a b (algebraShown i a b x) = (generateAlgebra d g).answer) ∧
    (∃ n1 d1 n2 d2 : ℕ, ∃ ad : Bool,
      (generateFractions d g).problem = fracProblem n1 d1 n2 d2 ad ∧
      |fracReEval n1 d1 n2 d2 ad - (generateFractions d g).answer| ≤ 1/2000) ∧
    ((g 2) % 2 = 0 →
      ∃ p b : ℕ, (generatePercentages d g).problem = percentDirectProblem p b ∧
        |(b : ℚ) * p / 100 - (generatePercentages d g).answer| ≤ 1/200) ∧
    (∃ bse pw num : ℕ,
      ((generatePowers d g).problem = powProblem bse pw ∧
        (generatePowers d g).answer = ((bse ^ pw : ℕ) : ℚ)) ∨
      ((generatePowers d g).problem = sqrtProblem num ∧
        (generatePowers d g).answer * (generatePowers d g).answer = (num : ℚ))) ∧
    (∃ i a b c : ℕ, i < 6 ∧
      (generateMixed d g).problem = "Calculate: " ++ ((mixedForms a b c).getD i ("", 0)).1 ∧
      |((mixedForms a b c).getD i ("", 0)).2 - (generateMixed d g).answer| ≤ 1/200) := by
  refine ⟨?_, ?_, ?_, ?_, ?_, ?_⟩
  · -- arithmetic
    intro hv
    refine ⟨(arithLoop (DIFFICULTY_CONFIG d) (g 0 % ((DIFFICULTY_CONFIG d).maxTerms - 1) + 2)
        g 20 1).1, rfl, ?_⟩
    have h := arithLoop_valid (DIFFICULTY_CONFIG d)
      (g 0 % ((DIFFICULTY_CONFIG d).maxTerms - 1) + 2) g 20 1 hv
    show |evalChain _ - (arithLoop (DIFFICULTY_CONFIG d)
      (g 0 % ((DIFFICULTY_CONFIG d).maxTerms - 1) + 2) g 20 1).2.1| ≤ 1/200
    rw [h, abs_sub_comm]
    exact round2_sub_le _
  · -- algebra
    have h1 : (algebraConfig d).1 = 1 := by cases d <;> rfl
    have ha1 : 1 ≤ randomNumber (g 0) (algebraConfig d).1 (algebraConfig d).2 := by
      have := randomNumber_ge (g 0) (algebraConfig d).1 (algebraConfig d).2
      omega
    have hi4 : (g 3) % 4 < 4 := Nat.mod_lt _ (by norm_num)
    have hlen : ∀ a b x : ℕ, (algebraForms a b x).length = 4 := by
      intro a b x
      simp [algebraForms]
    have hans : ∀ a b x : ℕ, ∀ j, j < 4 →
        ((algebraForms a b x).getD j ("", 0)).2 = (x : ℚ) := by
      intro a b x j hj
      interval_cases j <;> rfl
    have hprob : (generateAlgebra d g).problem =
        ((algebraForms (randomNumber (g 0) (algebraConfig d).1 (algebraConfig d).2)
          (randomNumber (g 1) (algebraConfig d).1 (algebraConfig d).2)
          (randomNumber (g 2) (algebraConfig d).1 (algebraConfig d).2)).getD
            ((g 3) % 4) ("", 0)).1 := by
      unfold generateAlgebra
      dsimp only
      rw [List.getD_eq_getElem _ _ (by rw [hlen]; omega),
        List.getD_eq_getElem _ _ (by rw [hlen]; omega)]
    have hansG : (generateAlgebra d g).answer =
        ((randomNumber (g 2) (algebraConfig d).1 (algebraConfig d).2 : ℕ) : ℚ) := by
      unfold generateAlgebra
      dsimp only
      rw [List.getD_eq_getElem _ _ (by rw [hlen]; omega)]
      have := hans (randomNumber (g 0) (algebraConfig d).1 (algebraConfig d).2)
        (randomNumber (g 1) (algebraConfig d).1 (algebraConfig d).2)
        (randomNumber (g 2) (algebraConfig d).1 (algebraConfig d).2) ((g 3) % 4) hi4
      rw [List.getD_eq_getElem _ _ (by rw [hlen]; omega)] at this
      exact this
    refine ⟨(g 3) % 4, randomNumber (g 0) (algebraConfig d).1 (algebraConfig d).2,
      randomNumber (g 1) (algebraConfig d).1 (algebraConfig d).2,
      randomNumber (g 2) (algebraConfig d).1 (algebraConfig d).2,
      hi4, ha1, hprob, hansG, ?_⟩
    rw [hansG]
    exact algebraReEval_eq _ _ _ _ ha1
  · -- fractions
    have hd1ge := randomNumber_ge (g 1) ((randomNumber (g 0) 1 (maxDenomOf d - 1)) + 1) (maxDenomOf d)
    have hd2ge := randomNumber_ge (g 3) ((randomNumber (g 2) 1 (maxDenomOf d - 1)) + 1) (maxDenomOf d)
    have hd1Q : (((randomNumber (g 1) ((randomNumber (g 0) 1 (maxDenomOf d - 1)) + 1) (maxDenomOf d)) : ℕ) : ℚ) ≠ 0 := Nat.cast_ne_zero.mpr (by omega)
    have hd2Q : (((randomNumber (g 3) ((randomNumber (g 2) 1 (maxDenomOf d - 1)) + 1) (maxDenomOf d)) : ℕ) : ℚ) ≠ 0 := Nat.cast_ne_zero.mpr (by omega)
    refine ⟨(randomNumber (g 0) 1 (maxDenomOf d - 1)), (randomNumber (g 1) ((randomNumber (g 0) 1 (maxDenomOf d - 1)) + 1) (maxDenomOf d)), (randomNumber (g 2) 1 (maxDenomOf d - 1)), (randomNumber (g 3) ((randomNumber (g 2) 1 (maxDenomOf d - 1)) + 1) (maxDenomOf d)), decide ((g 4) % 2 = 0), rfl, ?_⟩
    have hans : (generateFractions d g).answer = round3
        ((if (g 4) % 2 = 0 then (((randomNumber (g 0) 1 (maxDenomOf d - 1)) * (randomNumber (g 3) ((randomNumber (g 2) 1 (maxDenomOf d - 1)) + 1) (maxDenomOf d)) : ℕ) : ℚ) + (((randomNumber (g 2) 1 (maxDenomOf d - 1)) * (randomNumber (g 1) ((randomNumber (g 0) 1 (maxDenomOf d - 1)) + 1) (maxDenomOf d)) : ℕ) : ℚ) else (((randomNumber (g 0) 1 (maxDenomOf d - 1)) * (randomNumber (g 3) ((randomNumber (g 2) 1 (maxDenomOf d - 1)) + 1) (maxDenomOf d)) : ℕ) : ℚ) - (((randomNumber (g 2) 1 (maxDenomOf d - 1)) * (randomNumber (g 1) ((randomNumber (g 0) 1 (maxDenomOf d - 1)) + 1) (maxDenomOf d)) : ℕ) : ℚ)) / (((randomNumber (g 1) ((randomNumber (g 0) 1 (maxDenomOf d - 1)) + 1) (maxDenomOf d)) * (randomNumber (g 3) ((randomNumber (g 2) 1 (maxDenomOf d - 1)) + 1) (maxDenomOf d)) : ℕ) : ℚ)) := rfl
    have hT : fracReEval (randomNumber (g 0) 1 (maxDenomOf d - 1)) (randomNumber (g 1) ((randomNumber (g 0) 1 (maxDenomOf d - 1)) + 1) (maxDenomOf d)) (randomNumber (g 2) 1 (maxDenomOf d - 1)) (randomNumber (g 3) ((randomNumber (g 2) 1 (maxDenomOf d - 1)) + 1) (maxDenomOf d)) true = ((((randomNumber (g 0) 1 (maxDenomOf d - 1)) * (randomNumber (g 3) ((randomNumber (g 2) 1 (maxDenomOf d - 1)) + 1) (maxDenomOf d)) : ℕ) : ℚ) + (((randomNumber (g 2) 1 (maxDenomOf d - 1)) * (randomNumber (g 1) ((randomNumber (g 0) 1 (maxDenomOf d - 1)) + 1) (maxDenomOf d)) : ℕ) : ℚ)) / (((randomNumber (g 1) ((randomNumber (g 0) 1 (maxDenomOf d - 1)) + 1) (maxDenomOf d)) * (randomNumber (g 3) ((randomNumber (g 2) 1 (maxDenomOf d - 1)) + 1) (maxDenomOf d)) : ℕ) : ℚ) := by
      unfold fracReEval
      simp only [if_true]
      push_cast
      field_simp
      try ring
    have hF : fracReEval (randomNumber (g 0) 1 (maxDenomOf d - 1)) (randomNumber (g 1) ((randomNumber (g 0) 1 (maxDenomOf d - 1)) + 1) (maxDenomOf d)) (randomNumber (g 2) 1 (maxDenomOf d - 1)) (randomNumber (g 3) ((randomNumber (g 2) 1 (maxDenomOf d - 1)) + 1) (maxDenomOf d)) false = ((((randomNumber (g 0) 1 (maxDenomOf d - 1)) * (randomNumber (g 3) ((randomNumber (g 2) 1 (maxDenomOf d - 1)) + 1) (maxDenomOf d)) : ℕ) : ℚ) - (((randomNumber (g 2) 1 (maxDenomOf d - 1)) * (randomNumber (g 1) ((randomNumber (g 0) 1 (maxDenomOf d - 1)) + 1) (maxDenomOf d)) : ℕ) : ℚ)) / (((randomNumber (g 1) ((randomNumber (g 0) 1 (maxDenomOf d - 1)) + 1) (maxDenomOf d)) * (randomNumber (g 3) ((randomNumber (g 2) 1 (maxDenomOf d - 1)) + 1) (maxDenomOf d)) : ℕ) : ℚ) := by
      unfold fracReEval
      simp only [Bool.false_eq_true, if_false]
      push_cast
      field_simp
      try ring
    rw [hans]
    by_cases had : (g 4) % 2 = 0
    · rw [if_pos had, show decide ((g 4) % 2 = 0) = true by simp [had], hT, abs_sub_comm]
      exact round3_sub_le _
    · rw [if_neg had, show decide ((g 4) % 2 = 0) = false by simp [had], hF, abs_sub_comm]
      exact round3_sub_le _
  · -- percentages (direct variant)
    intro h0
    refine ⟨randomNumber (g 1) 5 95, randomNumber (g 0) 50 1000, ?_, ?_⟩
    · unfold generatePercentages
      dsimp only
      rw [h0]
      simp only [List.getD_cons_zero]
    · unfold generatePercentages
      dsimp only
      rw [h0]
      simp only [List.getD_cons_zero]
      have hcast : ((randomNumber (g 0) 50 1000 * randomNumber (g 1) 5 95 : ℕ) : ℚ) =
          (randomNumber (g 0) 50 1000 : ℚ) * (randomNumber (g 1) 5 95 : ℚ) := by
        push_cast
        ring
      rw [← hcast, abs_sub_comm]
      exact round2_sub_le _
  · -- powers
    unfold generatePowers
    dsimp only
    split_ifs with h1 h2
    · refine ⟨0, 0, randomNumber (g 2) 4 100, Or.inr ⟨rfl, ?_⟩⟩
      show ((natSqrt (randomNumber (g 2) 4 100) : ℕ) : ℚ) *
        ((natSqrt (randomNumber (g 2) 4 100) : ℕ) : ℚ) = ((randomNumber (g 2) 4 100 : ℕ) : ℚ)
      exact_mod_cast h2
    · exact ⟨randomNumber (g 0) 2 (maxBaseOf d), randomNumber (g 1) 2 (maxPowerOf d), 0,
        Or.inl ⟨rfl, rfl⟩⟩
    · exact ⟨randomNumber (g 0) 2 (maxBaseOf d), randomNumber (g 1) 2 (maxPowerOf d), 0,
        Or.inl ⟨rfl, rfl⟩⟩
  · -- mixed
    refine ⟨(g 3) % 6,
      randomNumber (g 0) (DIFFICULTY_CONFIG d).min (Nat.min (DIFFICULTY_CONFIG d).max 50),
      randomNumber (g 1) (DIFFICULTY_CONFIG d).min (Nat.min (DIFFICULTY_CONFIG d).max 50),
      randomNumber (g 2) (DIFFICULTY_CONFIG d).min (Nat.min (DIFFICULTY_CONFIG d).max 50),
      Nat.mod_lt _ (by norm_num), ?_, ?_⟩ <;>
      unfold generateMixed <;> dsimp only
    · rw [List.getD_eq_getElem _ _ (by simp [mixedForms]; omega),
        List.getD_eq_getElem _ _ (by simp [mixedForms]; omega)]
    · rw [List.getD_eq_getElem _ _ (by simp [mixedForms]; omega),
        List.getD_eq_getElem _ _ (by simp [mixedForms]; omega), abs_sub_comm]
      exact round2_sub_le _

theorem archetype_reEval_witness :
    (∃ c : Chain, (generateArithmetic .easy (fun _ => 0)).problem = "Calculate: " ++ chainStr c ∧
        |evalChain c - (generateArithmetic .easy (fun _ => 0)).answer| ≤ 1/200) ∧
    (∃ p b : ℕ, (generatePercentages .easy (fun _ => 0)).problem = percentDirectProblem p b ∧
        |(b : ℚ) * p / 100 - (generatePercentages .easy (fun _ => 0)).answer| ≤ 1/200) := by
  have h := archetype_reEval .easy (fun _ => 0)
  refine ⟨h.1 ?_, h.2.2.2.1 ?_⟩
  · show (arithLoop (DIFFICULTY_CONFIG .easy) 2 (fun _ => 0) 20 1).2.2 = true
    have hb0 : buildChain (DIFFICULTY_CONFIG .easy) 2 (fun _ => 0) = (1, [(Op.add, 1)]) := by
      decide
    have hv0 : isValidAnswer (evalChain (1, [(Op.add, 1)])) = true := by
      have hlt : ratAbs (evalChain (1, [(Op.add, 1)])) < 1000000 := by
        norm_num [ratAbs, evalChain, evalChainAux]
      simp only [isValidAnswer, decide_eq_true_eq]
      exact hlt
    rw [arithLoop]
    simp [show ∀ k, subOracle (fun _ => 0) k = (fun _ => (0 : ℕ)) from fun _ => rfl, hb0, hv0]
  · rfl

end MathQuiz
